import Mathlib

/-!
Universal-DllMain: entry-point convergence and the one-time initialization gate

A shallow embedding of `src/src/dllmain.cpp` together with the parts of
`src/include/nocrt.h` and `src/include/universal_dll.h` it calls.

* The file-scope statics `g_hModule`, `g_bInitialized`, `g_InitLock`,
  `g_bLockInitialized`, the function-local static `lockInit` of
  `EnsureInitialized` and the function-local static `initialized` of
  `nocrt_Initialize` are the fields of `State`; every function is a state
  transformer for one calling thread.
* `BOOL` is modelled by its truth value, pointers and `DWORD`s by naturals
  (`NULL` is `0`), `LONG` by integers.
* The two loops of the program (the wait for `g_bLockInitialized` and the spin of
  the no-CRT `EnterCriticalSection`) take a fuel argument; a result of `none`
  for every fuel means that the call never returns.
* `InitializeLibrary`, `CleanupLibrary`, `ThreadAttachHandler` and
  `ThreadDetachHandler` are the places where the template asks for user code, so
  they are a parameter (`UserCode`); `templateCode` is the text of the
  repository.  Every completed invocation of one of them, and every construction
  or destruction of the lock, is appended to the ghost field `State.trace`.
-/

namespace UniversalDll

/-! ## Types of `universal_dll.h` -/

abbrev PVOID := Nat
abbrev LPVOID := Nat
abbrev LPCVOID := Nat
abbrev HANDLE := Nat
abbrev HINSTANCE := Nat
abbrev DWORD := Nat
abbrev ULONG := Nat
abbrev SIZE_T := Nat
abbrev LONG := Int
abbrev NTSTATUS := Int
abbrev BOOL := Bool

def DLL_PROCESS_ATTACH : DWORD := 1
def DLL_THREAD_ATTACH : DWORD := 2
def DLL_THREAD_DETACH : DWORD := 3
def DLL_PROCESS_DETACH : DWORD := 0

/-- `struct _CRITICAL_SECTION` of `universal_dll.h`. -/
structure CRITICAL_SECTION where
  DebugInfo : PVOID
  LockCount : LONG
  RecursionCount : LONG
  OwningThread : HANDLE
  LockSemaphore : HANDLE
  SpinCount : ULONG
deriving DecidableEq, Repr

/-- `struct _MEMORY_BASIC_INFORMATION` of `universal_dll.h`. -/
structure MEMORY_BASIC_INFORMATION where
  BaseAddress : PVOID
  AllocationBase : PVOID
  AllocationProtect : DWORD
  RegionSize : SIZE_T
  State : DWORD
  Protect : DWORD
  Type_ : DWORD
deriving DecidableEq, Repr

/-- The all-zero critical section (static storage, and the result of `memset(.., 0, ..)`). -/
def CRITICAL_SECTION.zero : CRITICAL_SECTION :=
  { DebugInfo := 0, LockCount := 0, RecursionCount := 0, OwningThread := 0,
    LockSemaphore := 0, SpinCount := 0 }

/-- An automatic `MEMORY_BASIC_INFORMATION mbi;` before it is written. -/
def MEMORY_BASIC_INFORMATION.zero : MEMORY_BASIC_INFORMATION :=
  { BaseAddress := 0, AllocationBase := 0, AllocationProtect := 0, RegionSize := 0,
    State := 0, Protect := 0, Type_ := 0 }

/-! ## Ghost trace and program state -/

/-- Observable actions: completed user callbacks (with arguments, and the result of
`InitializeLibrary`) and the construction and destruction of `g_InitLock`. -/
inductive Event where
  | InitializeLibrary (hinstDLL : HINSTANCE) (dwReason : DWORD) (result : BOOL)
  | CleanupLibrary (hinstDLL : HINSTANCE) (dwReason : DWORD)
  | ThreadAttachHandler (hinstDLL : HINSTANCE)
  | ThreadDetachHandler (hinstDLL : HINSTANCE)
  | InitializeCriticalSection
  | DeleteCriticalSection
deriving DecidableEq, Repr

/-- The statics of `dllmain.cpp` and `nocrt.h`, the memory of the user code
(`user`, abstracted to a number) and the ghost `trace`. -/
structure State where
  g_hModule : HINSTANCE
  g_bInitialized : BOOL
  g_InitLock : CRITICAL_SECTION
  g_bLockInitialized : BOOL
  lockInit : LONG
  nocrt_initialized : BOOL
  user : Nat
  trace : List Event
deriving DecidableEq, Repr

/-- The zero-initialized state at image load. -/
def State.zero : State :=
  { g_hModule := 0, g_bInitialized := false, g_InitLock := CRITICAL_SECTION.zero,
    g_bLockInitialized := false, lockInit := 0, nocrt_initialized := false,
    user := 0, trace := [] }

/-- The four user-supplied routines declared at the top of `dllmain.cpp`.  A routine
may read and write the whole state and may fail to return (`none`). -/
structure UserCode where
  InitializeLibrary : HINSTANCE → DWORD → State → Option (BOOL × State)
  CleanupLibrary : HINSTANCE → DWORD → State → Option State
  ThreadAttachHandler : HINSTANCE → State → Option State
  ThreadDetachHandler : HINSTANCE → State → Option State

/-- The bodies of the four routines as they stand in `dllmain.cpp`. -/
def templateCode : UserCode where
  InitializeLibrary := fun hinstDLL _ s => some (true, { s with g_hModule := hinstDLL })
  CleanupLibrary := fun _ _ s => some s
  ThreadAttachHandler := fun _ s => some s
  ThreadDetachHandler := fun _ s => some s

/-- What is fixed when the image is built and loaded: whether `NO_CRT` is defined,
the memory query of the operating system (used when it is not), and the addresses
of the three functions that probe their own address. -/
structure Build where
  NO_CRT : Bool
  os_VirtualQuery : LPCVOID → MEMORY_BASIC_INFORMATION → SIZE_T → SIZE_T × MEMORY_BASIC_INFORMATION
  addr_ReflectiveLoader : LPCVOID
  addr_ThreadHijackEntry : LPCVOID
  addr_GetModuleBase : LPCVOID

/-! ## Primitives (`nocrt.h`, and the operating system otherwise) -/

/-- `__InterlockedCompareExchange(Destination, Exchange, Comparand)`: the pair of the
value returned (the old one) and the value left in `*Destination`. -/
def InterlockedCompareExchange (Destination Exchange Comparand : LONG) : LONG × LONG :=
  if Destination = Comparand then (Destination, Exchange) else (Destination, Destination)

/-- `nocrt_Initialize` of `nocrt.h`: sets its local static and returns `TRUE`. -/
def nocrt_Initialize (s : State) : BOOL × State :=
  if s.nocrt_initialized then (true, s)
  else (true, { s with nocrt_initialized := true })

/-- The spin `while (__InterlockedCompareExchange(&LockCount, 1, 0) != 0) {}` of the
no-CRT `EnterCriticalSection`. -/
def nocrt_spin : Nat → CRITICAL_SECTION → Option CRITICAL_SECTION
  | 0, _ => none
  | fuel + 1, cs =>
    let r := InterlockedCompareExchange cs.LockCount 1 0
    let cs1 := { cs with LockCount := r.2 }
    if r.1 ≠ 0 then nocrt_spin fuel cs1 else some cs1

/-- `InitializeCriticalSection(&g_InitLock)`.  With `NO_CRT` the wrapper of `nocrt.h`
(the function pointers are never assigned, so `nocrt_Initialize` is called, then the
structure is zeroed); otherwise the operating system primitive, which leaves the
section unowned. -/
def InitializeCriticalSection (b : Build) (s : State) : State :=
  if b.NO_CRT then
    let s1 := (nocrt_Initialize s).2
    { s1 with g_InitLock := CRITICAL_SECTION.zero,
              trace := s1.trace ++ [Event.InitializeCriticalSection] }
  else
    { s with g_InitLock := CRITICAL_SECTION.zero,
             trace := s.trace ++ [Event.InitializeCriticalSection] }

/-- `DeleteCriticalSection(&g_InitLock)`. -/
def DeleteCriticalSection (b : Build) (s : State) : State :=
  if b.NO_CRT then
    let s1 := (nocrt_Initialize s).2
    { s1 with g_InitLock := CRITICAL_SECTION.zero,
              trace := s1.trace ++ [Event.DeleteCriticalSection] }
  else
    { s with g_InitLock := CRITICAL_SECTION.zero,
             trace := s.trace ++ [Event.DeleteCriticalSection] }

/-- `EnterCriticalSection(&g_InitLock)`.  With `NO_CRT` the spin lock of `nocrt.h`;
otherwise the recursive critical section of the operating system, which the calling
thread always obtains in a run of one thread (the recursion count goes up by one). -/
def EnterCriticalSection (b : Build) (fuel : Nat) (s : State) : Option State :=
  if b.NO_CRT then
    let s1 := (nocrt_Initialize s).2
    match nocrt_spin fuel s1.g_InitLock with
    | none => none
    | some cs => some { s1 with g_InitLock := cs }
  else
    some { s with g_InitLock :=
      { s.g_InitLock with RecursionCount := s.g_InitLock.RecursionCount + 1 } }

/-- `LeaveCriticalSection(&g_InitLock)`.  With `NO_CRT`,
`__InterlockedExchange(&LockCount, 0)`; otherwise the recursion count goes down by one. -/
def LeaveCriticalSection (b : Build) (s : State) : State :=
  if b.NO_CRT then
    let s1 := (nocrt_Initialize s).2
    { s1 with g_InitLock := { s1.g_InitLock with LockCount := 0 } }
  else
    { s with g_InitLock :=
      { s.g_InitLock with RecursionCount := s.g_InitLock.RecursionCount - 1 } }

/-- `Sleep(1)` and `nocrt_Sleep(1)`: a delay, no effect on the state. -/
def Sleep (_dwMilliseconds : DWORD) (s : State) : State := s

/-- `VirtualQuery(lpAddress, &mbi, sizeof(mbi))`: the value returned and the buffer.
With `NO_CRT` the stub of `nocrt.h`, which returns 0 and writes nothing. -/
def VirtualQuery (b : Build) (lpAddress : LPCVOID) (lpBuffer : MEMORY_BASIC_INFORMATION)
    (dwLength : SIZE_T) : SIZE_T × MEMORY_BASIC_INFORMATION :=
  if b.NO_CRT then (0, lpBuffer) else b.os_VirtualQuery lpAddress lpBuffer dwLength

/-- `sizeof(MEMORY_BASIC_INFORMATION)`; the value plays no role. -/
def sizeof_mbi : SIZE_T := 48

/-! ## Calls of the user routines, recorded in the trace -/

/-- `InitializeLibrary(hinstDLL, dwReason)`, recorded with its result once it has returned. -/
def callInitializeLibrary (u : UserCode) (hinstDLL : HINSTANCE) (dwReason : DWORD)
    (s : State) : Option (BOOL × State) :=
  match u.InitializeLibrary hinstDLL dwReason s with
  | none => none
  | some (r, s1) =>
    some (r, { s1 with trace := s1.trace ++ [Event.InitializeLibrary hinstDLL dwReason r] })

/-- `CleanupLibrary(hinstDLL, dwReason)`, recorded once it has returned. -/
def callCleanupLibrary (u : UserCode) (hinstDLL : HINSTANCE) (dwReason : DWORD)
    (s : State) : Option State :=
  match u.CleanupLibrary hinstDLL dwReason s with
  | none => none
  | some s1 => some { s1 with trace := s1.trace ++ [Event.CleanupLibrary hinstDLL dwReason] }

/-- `ThreadAttachHandler(hinstDLL)`, recorded once it has returned. -/
def callThreadAttachHandler (u : UserCode) (hinstDLL : HINSTANCE) (s : State) : Option State :=
  match u.ThreadAttachHandler hinstDLL s with
  | none => none
  | some s1 => some { s1 with trace := s1.trace ++ [Event.ThreadAttachHandler hinstDLL] }

/-- `ThreadDetachHandler(hinstDLL)`, recorded once it has returned. -/
def callThreadDetachHandler (u : UserCode) (hinstDLL : HINSTANCE) (s : State) : Option State :=
  match u.ThreadDetachHandler hinstDLL s with
  | none => none
  | some s1 => some { s1 with trace := s1.trace ++ [Event.ThreadDetachHandler hinstDLL] }

/-! ## `dllmain.cpp` -/

/-- `TlsCallback(DllHandle, Reason, Reserved)`. -/
def TlsCallback (u : UserCode) (DllHandle : PVOID) (Reason : DWORD) (_Reserved : PVOID)
    (s : State) : Option State :=
  if Reason = DLL_PROCESS_ATTACH then some s
  else if Reason = DLL_THREAD_ATTACH then
    if s.g_bInitialized then callThreadAttachHandler u DllHandle s else some s
  else if Reason = DLL_THREAD_DETACH then
    if s.g_bInitialized then callThreadDetachHandler u DllHandle s else some s
  else if Reason = DLL_PROCESS_DETACH then some s
  else some s

/-- The loop `while (!g_bLockInitialized) Sleep(1);` of `EnsureInitialized`. -/
def waitLockInitialized : Nat → State → Option State
  | 0, _ => none
  | fuel + 1, s =>
    if !s.g_bLockInitialized then waitLockInitialized fuel (Sleep 1 s) else some s

/-- The first block of `EnsureInitialized`: lazy construction of `g_InitLock`. -/
def ensureLock (b : Build) (fuel : Nat) (s : State) : Option State :=
  if !s.g_bLockInitialized then
    let r := InterlockedCompareExchange s.lockInit 1 0
    let s1 := { s with lockInit := r.2 }
    if r.1 = 0 then
      some { InitializeCriticalSection b s1 with g_bLockInitialized := true }
    else
      waitLockInitialized fuel s1
  else some s

/-- The block of `EnsureInitialized` between `EnterCriticalSection` and
`LeaveCriticalSection`: the value of `result` and the state. -/
def initOnce (u : UserCode) (hinstDLL : HINSTANCE) (dwReason : DWORD) (s : State) :
    Option (BOOL × State) :=
  if !s.g_bInitialized then
    match callInitializeLibrary u hinstDLL dwReason { s with g_hModule := hinstDLL } with
    | none => none
    | some (result, s1) =>
      if result then some (result, { s1 with g_bInitialized := true })
      else some (result, s1)
  else some (true, s)

/-- `EnsureInitialized(hinstDLL, dwReason)`. -/
def EnsureInitialized (b : Build) (u : UserCode) (fuel : Nat) (hinstDLL : HINSTANCE)
    (dwReason : DWORD) (s : State) : Option (BOOL × State) :=
  match ensureLock b fuel s with
  | none => none
  | some s1 =>
    match EnterCriticalSection b fuel s1 with
    | none => none
    | some s2 =>
      match initOnce u hinstDLL dwReason s2 with
      | none => none
      | some (result, s3) => some (result, LeaveCriticalSection b s3)

/-- `DllMain(hinstDLL, fdwReason, lpvReserved)`. -/
def DllMain (b : Build) (u : UserCode) (fuel : Nat) (hinstDLL : HINSTANCE)
    (fdwReason : DWORD) (_lpvReserved : LPVOID) (s : State) : Option (BOOL × State) :=
  if fdwReason = DLL_PROCESS_ATTACH then
    match EnsureInitialized b u fuel hinstDLL fdwReason s with
    | none => none
    | some (ok, s1) => if !ok then some (false, s1) else some (true, s1)
  else if fdwReason = DLL_PROCESS_DETACH then
    if s.g_bInitialized then
      match callCleanupLibrary u hinstDLL fdwReason s with
      | none => none
      | some s1 =>
        let s2 :=
          if s1.g_bLockInitialized then
            { DeleteCriticalSection b s1 with g_bLockInitialized := false }
          else s1
        some (true, { s2 with g_bInitialized := false })
    else some (true, s)
  else if fdwReason = DLL_THREAD_ATTACH then
    if s.g_bInitialized then
      match callThreadAttachHandler u hinstDLL s with
      | none => none
      | some s1 => some (true, s1)
    else some (true, s)
  else if fdwReason = DLL_THREAD_DETACH then
    if s.g_bInitialized then
      match callThreadDetachHandler u hinstDLL s with
      | none => none
      | some s1 => some (true, s1)
    else some (true, s)
  else some (true, s)

/-- `DllEntry(hinstDLL, fdwReason, lpvReserved)`. -/
def DllEntry (b : Build) (u : UserCode) (fuel : Nat) (hinstDLL : HINSTANCE)
    (fdwReason : DWORD) (lpvReserved : LPVOID) (s : State) : Option (BOOL × State) :=
  DllMain b u fuel hinstDLL fdwReason lpvReserved s

/-- `_DllMainCRTStartup(hinstDLL, fdwReason, lpvReserved)`. -/
def _DllMainCRTStartup (b : Build) (u : UserCode) (fuel : Nat) (hinstDLL : HINSTANCE)
    (fdwReason : DWORD) (lpvReserved : LPVOID) (s : State) : Option (BOOL × State) :=
  DllMain b u fuel hinstDLL fdwReason lpvReserved s

/-- The identity a null parameter is replaced by: `mbi.AllocationBase` when
`VirtualQuery(probe, &mbi, sizeof(mbi))` is non-zero, else the parameter itself. -/
def resolveIdentity (b : Build) (probe : LPCVOID) (lpParameter : LPVOID) : HINSTANCE :=
  if lpParameter = 0 then
    let q := VirtualQuery b probe MEMORY_BASIC_INFORMATION.zero sizeof_mbi
    if q.1 ≠ 0 then q.2.AllocationBase else lpParameter
  else lpParameter

/-- `ReflectiveLoader(lpParameter)`; `(DWORD)(ULONG_PTR)hinstDLL` keeps the low 32 bits. -/
def ReflectiveLoader (b : Build) (u : UserCode) (fuel : Nat) (lpParameter : LPVOID)
    (s : State) : Option (DWORD × State) :=
  let hinstDLL := resolveIdentity b b.addr_ReflectiveLoader lpParameter
  match DllMain b u fuel hinstDLL DLL_PROCESS_ATTACH 0 s with
  | none => none
  | some (ok, s1) => if ok then some (hinstDLL % 2 ^ 32, s1) else some (0, s1)

/-- `KernelApcCallback(NormalContext, SystemArgument1, SystemArgument2)`. -/
def KernelApcCallback (b : Build) (u : UserCode) (fuel : Nat) (NormalContext : PVOID)
    (_SystemArgument1 _SystemArgument2 : PVOID) (s : State) : Option State :=
  if NormalContext ≠ 0 then
    match DllMain b u fuel NormalContext DLL_PROCESS_ATTACH 0 s with
    | none => none
    | some (_, s1) => some s1
  else some s

/-- `ThreadHijackEntry(lpParameter)`. -/
def ThreadHijackEntry (b : Build) (u : UserCode) (fuel : Nat) (lpParameter : LPVOID)
    (s : State) : Option (DWORD × State) :=
  let hinstDLL := resolveIdentity b b.addr_ThreadHijackEntry lpParameter
  match DllMain b u fuel hinstDLL DLL_PROCESS_ATTACH 0 s with
  | none => none
  | some (ok, s1) => some (if ok then 1 else 0, s1)

/-- `LdrLoadDllEntry(PathToFile, Flags, ModuleFileName, ModuleHandle)`; the pointer
`ModuleHandle` is `none` when null and `some h` when it points to the handle `h`. -/
def LdrLoadDllEntry (b : Build) (u : UserCode) (fuel : Nat) (_PathToFile _Flags : PVOID)
    (_ModuleFileName : PVOID) (ModuleHandle : Option HANDLE) (s : State) :
    Option (NTSTATUS × State) :=
  match ModuleHandle with
  | some h =>
    if h ≠ 0 then
      match DllMain b u fuel h DLL_PROCESS_ATTACH 0 s with
      | none => none
      | some (_, s1) => some (0, s1)
    else some (0, s)
  | none => some (0, s)

/-- `GetModuleBase()`. -/
def GetModuleBase (b : Build) (s : State) : HINSTANCE :=
  if s.g_hModule ≠ 0 then s.g_hModule
  else
    let q := VirtualQuery b b.addr_GetModuleBase MEMORY_BASIC_INFORMATION.zero sizeof_mbi
    if q.1 ≠ 0 then q.2.AllocationBase else 0

/-! ## Calls from the outside and runs -/

/-- One call of an exported function (or of the TLS callback) with its arguments. -/
inductive Call where
  | DllMain (hinstDLL : HINSTANCE) (fdwReason : DWORD) (lpvReserved : LPVOID)
  | DllEntry (hinstDLL : HINSTANCE) (fdwReason : DWORD) (lpvReserved : LPVOID)
  | _DllMainCRTStartup (hinstDLL : HINSTANCE) (fdwReason : DWORD) (lpvReserved : LPVOID)
  | ReflectiveLoader (lpParameter : LPVOID)
  | KernelApcCallback (NormalContext SystemArgument1 SystemArgument2 : PVOID)
  | ThreadHijackEntry (lpParameter : LPVOID)
  | LdrLoadDllEntry (PathToFile Flags ModuleFileName : PVOID) (ModuleHandle : Option HANDLE)
  | TlsCallback (DllHandle : PVOID) (Reason : DWORD) (Reserved : PVOID)
deriving DecidableEq, Repr

/-- The value a call hands back, in the shape of its return type. -/
inductive Ret where
  | BOOL (value : Bool)
  | DWORD (value : Nat)
  | NTSTATUS (value : Int)
  | void
deriving DecidableEq, Repr

/-- Performs one call. -/
def invoke (b : Build) (u : UserCode) (fuel : Nat) (c : Call) (s : State) :
    Option (Ret × State) :=
  match c with
  | Call.DllMain h r p => (DllMain b u fuel h r p s).map (fun x => (Ret.BOOL x.1, x.2))
  | Call.DllEntry h r p => (DllEntry b u fuel h r p s).map (fun x => (Ret.BOOL x.1, x.2))
  | Call._DllMainCRTStartup h r p =>
    (_DllMainCRTStartup b u fuel h r p s).map (fun x => (Ret.BOOL x.1, x.2))
  | Call.ReflectiveLoader p => (ReflectiveLoader b u fuel p s).map (fun x => (Ret.DWORD x.1, x.2))
  | Call.KernelApcCallback c1 a1 a2 =>
    (KernelApcCallback b u fuel c1 a1 a2 s).map (fun x => (Ret.void, x))
  | Call.ThreadHijackEntry p =>
    (ThreadHijackEntry b u fuel p s).map (fun x => (Ret.DWORD x.1, x.2))
  | Call.LdrLoadDllEntry p f n m =>
    (LdrLoadDllEntry b u fuel p f n m s).map (fun x => (Ret.NTSTATUS x.1, x.2))
  | Call.TlsCallback h r p => (TlsCallback u h r p s).map (fun x => (Ret.void, x))

/-- Performs the calls one after the other; the values handed back, and the last state. -/
def run (b : Build) (u : UserCode) (fuel : Nat) : List Call → State → Option (List Ret × State)
  | [], s => some ([], s)
  | c :: cs, s =>
    match invoke b u fuel c s with
    | none => none
    | some (r, s1) =>
      match run b u fuel cs s1 with
      | none => none
      | some (rs, s2) => some (r :: rs, s2)

/-- The call is a process-attach request: a notification entry with reason
`DLL_PROCESS_ATTACH`, or one of the four single-purpose entries. -/
def Call.isProcessAttach : Call → Bool
  | Call.DllMain _ r _ => decide (r = DLL_PROCESS_ATTACH)
  | Call.DllEntry _ r _ => decide (r = DLL_PROCESS_ATTACH)
  | Call._DllMainCRTStartup _ r _ => decide (r = DLL_PROCESS_ATTACH)
  | Call.ReflectiveLoader _ => true
  | Call.KernelApcCallback _ _ _ => true
  | Call.ThreadHijackEntry _ => true
  | Call.LdrLoadDllEntry _ _ _ _ => true
  | Call.TlsCallback _ _ _ => false

/-- The process-attach request is one the entry forwards to `DllMain`: all of them but
`KernelApcCallback` with a null context and `LdrLoadDllEntry` with a null pointer or a
null handle. -/
def Call.forwardsProcessAttach : Call → Bool
  | Call.KernelApcCallback c _ _ => decide (c ≠ 0)
  | Call.LdrLoadDllEntry _ _ _ m =>
    match m with
    | some h => decide (h ≠ 0)
    | none => false
  | c => c.isProcessAttach

/-- What each entry hands back when the process-attach it forwards has succeeded. -/
def Call.successValue (b : Build) : Call → Ret
  | Call.DllMain _ _ _ => Ret.BOOL true
  | Call.DllEntry _ _ _ => Ret.BOOL true
  | Call._DllMainCRTStartup _ _ _ => Ret.BOOL true
  | Call.ReflectiveLoader p => Ret.DWORD (resolveIdentity b b.addr_ReflectiveLoader p % 2 ^ 32)
  | Call.KernelApcCallback _ _ _ => Ret.void
  | Call.ThreadHijackEntry _ => Ret.DWORD 1
  | Call.LdrLoadDllEntry _ _ _ _ => Ret.NTSTATUS 0
  | Call.TlsCallback _ _ _ => Ret.void

/-- What each entry hands back when the process-attach it forwards has failed. -/
def Call.failureValue : Call → Ret
  | Call.DllMain _ _ _ => Ret.BOOL false
  | Call.DllEntry _ _ _ => Ret.BOOL false
  | Call._DllMainCRTStartup _ _ _ => Ret.BOOL false
  | Call.ReflectiveLoader _ => Ret.DWORD 0
  | Call.KernelApcCallback _ _ _ => Ret.void
  | Call.ThreadHijackEntry _ => Ret.DWORD 0
  | Call.LdrLoadDllEntry _ _ _ _ => Ret.NTSTATUS 0
  | Call.TlsCallback _ _ _ => Ret.void

/-- The identity an entry passes on to `DllMain`. -/
def Call.identity (b : Build) : Call → HINSTANCE
  | Call.DllMain h _ _ => h
  | Call.DllEntry h _ _ => h
  | Call._DllMainCRTStartup h _ _ => h
  | Call.ReflectiveLoader p => resolveIdentity b b.addr_ReflectiveLoader p
  | Call.KernelApcCallback c _ _ => c
  | Call.ThreadHijackEntry p => resolveIdentity b b.addr_ThreadHijackEntry p
  | Call.LdrLoadDllEntry _ _ _ m => m.getD 0
  | Call.TlsCallback h _ _ => h

/-! ## Reading the trace -/

/-- The event is a completed invocation of `InitializeLibrary`. -/
def Event.isInitializeLibrary : Event → Bool
  | Event.InitializeLibrary _ _ _ => true
  | _ => false

/-- The completed invocations of `InitializeLibrary`, in order. -/
def initEvents (t : List Event) : List Event := t.filter Event.isInitializeLibrary

/-- How many times `InitializeLibrary` has run. -/
def initCalls (t : List Event) : Nat := (initEvents t).length

/-! ## Assumptions on the user code -/

/-- What user code may not write: `s1` agrees with `s` on `g_bInitialized`, on the lock and
its two flags, on the static of `nocrt_Initialize` and on the trace. -/
def UserFrame (s s1 : State) : Prop :=
  s1.g_bInitialized = s.g_bInitialized ∧ s1.g_InitLock = s.g_InitLock ∧
  s1.g_bLockInitialized = s.g_bLockInitialized ∧ s1.lockInit = s.lockInit ∧
  s1.nocrt_initialized = s.nocrt_initialized ∧ s1.trace = s.trace

/-- `InitializeLibrary` returns, and writes nothing but `g_hModule` (as the body in the
repository does) and the memory of the user code. -/
def UserCode.InitPassive (u : UserCode) : Prop :=
  ∀ h r s, ∃ res s1, u.InitializeLibrary h r s = some (res, s1) ∧ UserFrame s s1

/-- `InitializeLibrary` is passive and always reports success. -/
def UserCode.InitReportsSuccess (u : UserCode) : Prop :=
  ∀ h r s, ∃ s1, u.InitializeLibrary h r s = some (true, s1) ∧ UserFrame s s1

/-- `CleanupLibrary` and the two thread handlers return and write nothing but the memory
of the user code. -/
def UserCode.HandlersPassive (u : UserCode) : Prop :=
  (∀ h r s, ∃ s1, u.CleanupLibrary h r s = some s1 ∧ UserFrame s s1 ∧
    s1.g_hModule = s.g_hModule) ∧
  (∀ h s, ∃ s1, u.ThreadAttachHandler h s = some s1 ∧ UserFrame s s1 ∧
    s1.g_hModule = s.g_hModule) ∧
  (∀ h s, ∃ s1, u.ThreadDetachHandler h s = some s1 ∧ UserFrame s s1 ∧
    s1.g_hModule = s.g_hModule)

/-! ## Predicates on states -/

/-- No call is inside the critical section: with `NO_CRT` the spin lock is open. -/
def LockFree (b : Build) (s : State) : Prop :=
  b.NO_CRT = true → s.g_InitLock.LockCount = 0

/-- A state between calls in which the lock can be obtained: it is constructed and free,
or it was never constructed. -/
def Quiescent (b : Build) (s : State) : Prop :=
  (s.g_bLockInitialized = true ∧ LockFree b s) ∨
  (s.g_bLockInitialized = false ∧ s.lockInit = 0)

/-- Initialization has succeeded and the lock is constructed and free. -/
def Attached (b : Build) (s : State) : Prop :=
  s.g_bInitialized = true ∧ s.g_bLockInitialized = true ∧ LockFree b s

/-! ## Concrete builds and user code used in the examples -/

/-- A build with `NO_CRT` defined. -/
def nocrtBuild : Build :=
  { NO_CRT := true, os_VirtualQuery := fun _ buf _ => (0, buf),
    addr_ReflectiveLoader := 0x1200, addr_ThreadHijackEntry := 0x1300,
    addr_GetModuleBase := 0x1400 }

/-- A build without `NO_CRT`, loaded at `base`, whose memory query answers for the
addresses of the image (`base ≤ a < base + 0x10000`) and fails elsewhere. -/
def crtBuild (base : PVOID) : Build :=
  { NO_CRT := false,
    os_VirtualQuery := fun a buf len =>
      if base ≤ a ∧ a < base + 0x10000 then
        (len, { buf with BaseAddress := a - a % 0x1000, AllocationBase := base,
                         RegionSize := 0x1000 })
      else (0, buf),
    addr_ReflectiveLoader := base + 0x200, addr_ThreadHijackEntry := base + 0x300,
    addr_GetModuleBase := base + 0x400 }

/-- User code whose initialization always reports failure. -/
def failingCode : UserCode :=
  { templateCode with InitializeLibrary := fun _ _ s => some (false, s) }

/-- User code whose initialization reports failure the first time and success afterwards
(it counts its attempts in its own memory). -/
def retryCode : UserCode :=
  { templateCode with
    InitializeLibrary := fun _ _ s =>
      if s.user = 0 then some (false, { s with user := 1 })
      else some (true, { s with user := s.user + 1 }) }

/-- Two states agree on everything but the inside of `g_InitLock` and the static of
`nocrt_Initialize`. -/
def SameVars (s s1 : State) : Prop :=
  s1.g_hModule = s.g_hModule ∧ s1.g_bInitialized = s.g_bInitialized ∧
  s1.g_bLockInitialized = s.g_bLockInitialized ∧ s1.lockInit = s.lockInit ∧
  s1.user = s.user ∧ s1.trace = s.trace

/-- The lock events a call of `EnsureInitialized` adds: one construction when the lock
was not yet constructed. -/
def lockEvents (s : State) : List Event :=
  if s.g_bLockInitialized then [] else [Event.InitializeCriticalSection]

/-- The state after `DllMain(0x1000, DLL_PROCESS_ATTACH, NULL)` on the zero state in the
build `nocrtBuild` with the user code of the repository. -/
def attachedExample : State :=
  { g_hModule := 0x1000, g_bInitialized := true, g_InitLock := CRITICAL_SECTION.zero,
    g_bLockInitialized := true, lockInit := 1, nocrt_initialized := true, user := 0,
    trace := [Event.InitializeCriticalSection,
              Event.InitializeLibrary 0x1000 DLL_PROCESS_ATTACH true] }

/-- The Initialization State is the same in `s` and `s1`: the cached identity, the two
flags, the one-shot flag and the lock. -/
def InitStateEq (s s1 : State) : Prop :=
  s1.g_hModule = s.g_hModule ∧ s1.g_bInitialized = s.g_bInitialized ∧
  s1.g_bLockInitialized = s.g_bLockInitialized ∧ s1.lockInit = s.lockInit ∧
  s1.g_InitLock = s.g_InitLock

/-- `InitializeLibrary` is passive, always reports failure and does not change the cached
identity. -/
def UserCode.InitReportsFailure (u : UserCode) : Prop :=
  ∀ h r s, ∃ s1, u.InitializeLibrary h r s = some (false, s1) ∧ UserFrame s s1 ∧
    s1.g_hModule = s.g_hModule

/-- The one-shot flag `lockInit` is 1 as soon as the lock has been constructed or
initialization has succeeded. -/
def LatchInv (s : State) : Prop :=
  (s.g_bInitialized = true ∨ s.g_bLockInitialized = true) → s.lockInit = 1

/-- Initialization has succeeded at some point: `lockInit` is 1 and either
`g_bInitialized` is still true or the lock has been destroyed by a process-detach. -/
def Established (s : State) : Prop :=
  s.lockInit = 1 ∧ (s.g_bInitialized = true ∨ s.g_bLockInitialized = false)

/-- The state after a failed attach with identity `0x1000` and a successful one with
identity `0x2000` (build `nocrtBuild`, user code `retryCode`). -/
def retriedExample : State :=
  { g_hModule := 0x2000, g_bInitialized := true, g_InitLock := CRITICAL_SECTION.zero,
    g_bLockInitialized := true, lockInit := 1, nocrt_initialized := true, user := 2,
    trace := [Event.InitializeCriticalSection,
              Event.InitializeLibrary 0x1000 DLL_PROCESS_ATTACH false,
              Event.InitializeLibrary 0x2000 DLL_PROCESS_ATTACH true] }

/-- The state `retriedExample` after two thread notifications and a process-detach. -/
def detachedExample : State :=
  { retriedExample with
    g_bInitialized := false, g_bLockInitialized := false,
    trace := retriedExample.trace ++
      [Event.ThreadAttachHandler 0x4000, Event.ThreadDetachHandler 0x5000,
       Event.CleanupLibrary 0x6000 DLL_PROCESS_DETACH, Event.DeleteCriticalSection] }

/-- The identity the caller supplies with a call (null is 0). -/
def Call.suppliedIdentity : Call → HINSTANCE
  | Call.DllMain h _ _ => h
  | Call.DllEntry h _ _ => h
  | Call._DllMainCRTStartup h _ _ => h
  | Call.ReflectiveLoader p => p
  | Call.KernelApcCallback c _ _ => c
  | Call.ThreadHijackEntry p => p
  | Call.LdrLoadDllEntry _ _ _ m => m.getD 0
  | Call.TlsCallback h _ _ => h

/-- `InitializeLibrary`, called with the cached identity as its argument (as
`EnsureInitialized` calls it), leaves the cached identity at that value; the body in the
repository, which assigns its argument to `g_hModule`, is of this kind. -/
def UserCode.InitKeepsIdentity (u : UserCode) : Prop :=
  ∀ h r s res s1, u.InitializeLibrary h r s = some (res, s1) → s.g_hModule = h →
    s1.g_hModule = h

/-- The memory query, asked about the address `a`, succeeds and reports the allocation
base `B`. -/
def QueryResolves (b : Build) (a : LPCVOID) (B : PVOID) : Prop :=
  (VirtualQuery b a MEMORY_BASIC_INFORMATION.zero sizeof_mbi).1 ≠ 0 ∧
  (VirtualQuery b a MEMORY_BASIC_INFORMATION.zero sizeof_mbi).2.AllocationBase = B

/-- The lock-state invariant: `g_bInitialized` implies `g_bLockInitialized`, and
`g_bLockInitialized` implies that the one-shot flag `lockInit` is 1. -/
def LockStateInv (s : State) : Prop :=
  (s.g_bInitialized = true → s.g_bLockInitialized = true) ∧
  (s.g_bLockInitialized = true → s.lockInit = 1)

/-- The state `attachedExample` after `DllMain(0x1000, DLL_PROCESS_DETACH, NULL)`. -/
def tornDownExample : State :=
  { attachedExample with
    g_bInitialized := false, g_bLockInitialized := false,
    trace := attachedExample.trace ++
      [Event.CleanupLibrary 0x1000 DLL_PROCESS_DETACH, Event.DeleteCriticalSection] }

/-- User code whose `InitializeLibrary` re-enters the gate: on its first invocation
(`user = 0`) it notes the fact in its own memory and calls
`DllMain(hinstDLL, DLL_PROCESS_ATTACH, NULL)` on the same thread, then, as on every
later invocation, records the identity and returns `TRUE`.  The nested call runs this
same user code; `depth` bounds the nesting of calls, and `none` stands for a call that
does not return within the bound. -/
def reentrantCode (b : Build) (fuel : Nat) : Nat → UserCode
  | 0 => { templateCode with InitializeLibrary := fun _ _ _ => none }
  | depth + 1 =>
    { templateCode with
      InitializeLibrary := fun hinstDLL _ s =>
        if s.user = 0 then
          match DllMain b (reentrantCode b fuel depth) fuel hinstDLL DLL_PROCESS_ATTACH 0
              { s with user := 1 } with
          | none => none
          | some x => some (true, { x.2 with g_hModule := hinstDLL })
        else some (true, { s with g_hModule := hinstDLL }) }

/-! ## Lemmas on the primitives -/

theorem nocrt_spin_free (fuel : Nat) (cs : CRITICAL_SECTION) (h : cs.LockCount = 0) :
    nocrt_spin (fuel + 1) cs = some { cs with LockCount := 1 } := by
  simp [nocrt_spin, InterlockedCompareExchange, h]

theorem nocrt_spin_held (fuel : Nat) (cs : CRITICAL_SECTION) (h : cs.LockCount ≠ 0) :
    nocrt_spin fuel cs = none := by
  induction fuel with
  | zero => rfl
  | succ n ih =>
    have hcs : ({ cs with LockCount := cs.LockCount } : CRITICAL_SECTION) = cs := rfl
    simp [nocrt_spin, InterlockedCompareExchange, h, hcs, ih]

theorem waitLockInitialized_never (fuel : Nat) (s : State) (h : s.g_bLockInitialized = false) :
    waitLockInitialized fuel s = none := by
  induction fuel with
  | zero => rfl
  | succ n ih => simp [waitLockInitialized, h, Sleep, ih]

theorem EnterCriticalSection_free (b : Build) (fuel : Nat) (s : State) (hl : LockFree b s) :
    ∃ s2, EnterCriticalSection b (fuel + 1) s = some s2 ∧ SameVars s s2 := by
  cases hb : b.NO_CRT with
  | false => simp [EnterCriticalSection, hb, SameVars]
  | true =>
    have h0 : s.g_InitLock.LockCount = 0 := hl hb
    cases hn : s.nocrt_initialized <;>
      simp [EnterCriticalSection, hb, nocrt_Initialize, hn, nocrt_spin_free, h0, SameVars]

theorem LeaveCriticalSection_spec (b : Build) (s : State) :
    SameVars s (LeaveCriticalSection b s) ∧ LockFree b (LeaveCriticalSection b s) := by
  cases hb : b.NO_CRT with
  | false => simp [LeaveCriticalSection, hb, SameVars, LockFree]
  | true =>
    cases hn : s.nocrt_initialized <;>
      simp [LeaveCriticalSection, hb, nocrt_Initialize, hn, SameVars, LockFree]

theorem ensureLock_quiescent (b : Build) (fuel : Nat) (s : State) (hq : Quiescent b s) :
    ∃ s1, ensureLock b fuel s = some s1 ∧ s1.g_bLockInitialized = true ∧ LockFree b s1 ∧
      s1.g_hModule = s.g_hModule ∧ s1.g_bInitialized = s.g_bInitialized ∧
      s1.user = s.user ∧ s1.trace = s.trace ++ lockEvents s ∧
      s1.lockInit = (if s.g_bLockInitialized then s.lockInit else 1) := by
  rcases hq with ⟨hr, hl⟩ | ⟨hr, h0⟩
  · exact ⟨s, by simp [ensureLock, hr], hr, hl, rfl, rfl, rfl, by simp [lockEvents, hr],
      by simp [hr]⟩
  · cases hb : b.NO_CRT <;> cases hn : s.nocrt_initialized <;>
      simp [ensureLock, hr, h0, InterlockedCompareExchange, InitializeCriticalSection, hb,
        nocrt_Initialize, hn, LockFree, lockEvents, CRITICAL_SECTION.zero]

theorem initOnce_done (u : UserCode) (h : HINSTANCE) (r : DWORD) (s : State)
    (hi : s.g_bInitialized = true) : initOnce u h r s = some (true, s) := by
  simp [initOnce, hi]

theorem initOnce_first (u : UserCode) (hu : u.InitPassive) (h : HINSTANCE) (r : DWORD)
    (s : State) (hi : s.g_bInitialized = false) :
    ∃ res sout s1, u.InitializeLibrary h r { s with g_hModule := h } = some (res, sout) ∧
      initOnce u h r s = some (res, s1) ∧ s1.g_hModule = sout.g_hModule ∧
      s1.user = sout.user ∧ s1.g_bInitialized = res ∧ s1.g_InitLock = s.g_InitLock ∧
      s1.g_bLockInitialized = s.g_bLockInitialized ∧ s1.lockInit = s.lockInit ∧
      s1.nocrt_initialized = s.nocrt_initialized ∧
      s1.trace = s.trace ++ [Event.InitializeLibrary h r res] := by
  obtain ⟨res, sout, hcb, hf1, hf2, hf3, hf4, hf5, hf6⟩ := hu h r { s with g_hModule := h }
  have hne : (!s.g_bInitialized) = true := by simp [hi]
  unfold initOnce callInitializeLibrary
  rw [if_pos hne, hcb]
  cases res
  · refine ⟨false, sout, _, rfl, rfl, ?_⟩
    simp_all
  · refine ⟨true, sout, _, rfl, rfl, ?_⟩
    simp_all

/-! ## The gate -/

theorem EnsureInitialized_initialized (b : Build) (u : UserCode) (fuel : Nat) (s : State)
    (hq : Quiescent b s) (hi : s.g_bInitialized = true) (h : HINSTANCE) (r : DWORD) :
    ∃ s1, EnsureInitialized b u (fuel + 1) h r s = some (true, s1) ∧
      s1.g_bInitialized = true ∧ s1.g_bLockInitialized = true ∧ LockFree b s1 ∧
      s1.g_hModule = s.g_hModule ∧ s1.user = s.user ∧ s1.trace = s.trace ++ lockEvents s ∧
      s1.lockInit = (if s.g_bLockInitialized then s.lockInit else 1) := by
  obtain ⟨s1, h1, hr1, hl1, hm1, hi1, hu1, ht1, hk1⟩ := ensureLock_quiescent b (fuel + 1) s hq
  obtain ⟨s2, h2, hm2, hi2, hr2, hk2, hu2, ht2⟩ := EnterCriticalSection_free b fuel s1 hl1
  have h3 := initOnce_done u h r s2 (by rw [hi2, hi1, hi])
  obtain ⟨⟨hm4, hi4, hr4, hk4, hu4, ht4⟩, hl4⟩ := LeaveCriticalSection_spec b s2
  refine ⟨LeaveCriticalSection b s2, by simp [EnsureInitialized, h1, h2, h3], ?_, ?_, hl4,
    ?_, ?_, ?_, ?_⟩
  · rw [hi4, hi2, hi1, hi]
  · rw [hr4, hr2, hr1]
  · rw [hm4, hm2, hm1]
  · rw [hu4, hu2, hu1]
  · rw [ht4, ht2, ht1]
  · rw [hk4, hk2, hk1]

theorem EnsureInitialized_uninitialized (b : Build) (u : UserCode) (hu : u.InitPassive)
    (fuel : Nat) (s : State) (hq : Quiescent b s) (hi : s.g_bInitialized = false)
    (h : HINSTANCE) (r : DWORD) :
    ∃ res sin sout s1, sin.g_hModule = h ∧ u.InitializeLibrary h r sin = some (res, sout) ∧
      EnsureInitialized b u (fuel + 1) h r s = some (res, s1) ∧
      s1.g_bInitialized = res ∧ s1.g_bLockInitialized = true ∧ LockFree b s1 ∧
      s1.g_hModule = sout.g_hModule ∧ s1.user = sout.user ∧
      s1.trace = s.trace ++ lockEvents s ++ [Event.InitializeLibrary h r res] ∧
      s1.lockInit = (if s.g_bLockInitialized then s.lockInit else 1) := by
  obtain ⟨s1, h1, hr1, hl1, hm1, hi1, hu1, ht1, hk1⟩ := ensureLock_quiescent b (fuel + 1) s hq
  obtain ⟨s2, h2, hm2, hi2, hr2, hk2, hu2, ht2⟩ := EnterCriticalSection_free b fuel s1 hl1
  obtain ⟨res, sout, s3, hcb, h3, hm3, hu3, hi3, _, hr3, hk3, _, ht3⟩ :=
    initOnce_first u hu h r s2 (by rw [hi2, hi1, hi])
  obtain ⟨⟨hm4, hi4, hr4, hk4, hu4, ht4⟩, hl4⟩ := LeaveCriticalSection_spec b s3
  refine ⟨res, _, sout, LeaveCriticalSection b s3, rfl, hcb,
    by simp [EnsureInitialized, h1, h2, h3], ?_, ?_, hl4, ?_, ?_, ?_, ?_⟩
  · rw [hi4, hi3]
  · rw [hr4, hr3, hr2, hr1]
  · rw [hm4, hm3]
  · rw [hu4, hu3]
  · rw [ht4, ht3, ht2, ht1]
  · rw [hk4, hk3, hk2, hk1]

/-! ## The entry points reduce to the gate -/

theorem DllMain_attach_eq (b : Build) (u : UserCode) (fuel : Nat) (h : HINSTANCE) (p : LPVOID)
    (s : State) :
    DllMain b u fuel h DLL_PROCESS_ATTACH p s
      = EnsureInitialized b u fuel h DLL_PROCESS_ATTACH s := by
  unfold DllMain
  rw [if_pos rfl]
  cases hE : EnsureInitialized b u fuel h DLL_PROCESS_ATTACH s with
  | none => rfl
  | some x =>
    obtain ⟨ok, s1⟩ := x
    cases ok <;> rfl

theorem invoke_forward (b : Build) (u : UserCode) (fuel : Nat) (c : Call) (s : State)
    (hc : c.forwardsProcessAttach = true) :
    invoke b u fuel c s
      = (EnsureInitialized b u fuel (c.identity b) DLL_PROCESS_ATTACH s).map
          (fun x => (if x.1 then c.successValue b else c.failureValue, x.2)) := by
  cases c with
  | DllMain h r p =>
    have hr : r = DLL_PROCESS_ATTACH := by simpa [Call.forwardsProcessAttach, Call.isProcessAttach] using hc
    subst hr
    simp only [invoke, DllMain_attach_eq, Call.identity]
    cases hE : EnsureInitialized b u fuel h DLL_PROCESS_ATTACH s with
    | none => rfl
    | some x => obtain ⟨ok, s1⟩ := x; cases ok <;> rfl
  | DllEntry h r p =>
    have hr : r = DLL_PROCESS_ATTACH := by simpa [Call.forwardsProcessAttach, Call.isProcessAttach] using hc
    subst hr
    simp only [invoke, DllEntry, DllMain_attach_eq, Call.identity]
    cases hE : EnsureInitialized b u fuel h DLL_PROCESS_ATTACH s with
    | none => rfl
    | some x => obtain ⟨ok, s1⟩ := x; cases ok <;> rfl
  | _DllMainCRTStartup h r p =>
    have hr : r = DLL_PROCESS_ATTACH := by simpa [Call.forwardsProcessAttach, Call.isProcessAttach] using hc
    subst hr
    simp only [invoke, _DllMainCRTStartup, DllMain_attach_eq, Call.identity]
    cases hE : EnsureInitialized b u fuel h DLL_PROCESS_ATTACH s with
    | none => rfl
    | some x => obtain ⟨ok, s1⟩ := x; cases ok <;> rfl
  | ReflectiveLoader p =>
    simp only [invoke, ReflectiveLoader, DllMain_attach_eq, Call.identity]
    cases hE : EnsureInitialized b u fuel (resolveIdentity b b.addr_ReflectiveLoader p)
        DLL_PROCESS_ATTACH s with
    | none => rfl
    | some x => obtain ⟨ok, s1⟩ := x; cases ok <;> rfl
  | KernelApcCallback c1 a1 a2 =>
    have hne : c1 ≠ 0 := by simpa [Call.forwardsProcessAttach] using hc
    simp only [invoke, KernelApcCallback, DllMain_attach_eq, Call.identity, if_pos hne]
    cases hE : EnsureInitialized b u fuel c1 DLL_PROCESS_ATTACH s with
    | none => rfl
    | some x => obtain ⟨ok, s1⟩ := x; cases ok <;> rfl
  | ThreadHijackEntry p =>
    simp only [invoke, ThreadHijackEntry, DllMain_attach_eq, Call.identity]
    cases hE : EnsureInitialized b u fuel (resolveIdentity b b.addr_ThreadHijackEntry p)
        DLL_PROCESS_ATTACH s with
    | none => rfl
    | some x => obtain ⟨ok, s1⟩ := x; cases ok <;> rfl
  | LdrLoadDllEntry p f n m =>
    cases m with
    | none => simp [Call.forwardsProcessAttach] at hc
    | some hd =>
      have hne : hd ≠ 0 := by simpa [Call.forwardsProcessAttach] using hc
      simp only [invoke, LdrLoadDllEntry, DllMain_attach_eq, Call.identity, if_pos hne,
        Option.getD_some]
      cases hE : EnsureInitialized b u fuel hd DLL_PROCESS_ATTACH s with
      | none => rfl
      | some x => obtain ⟨ok, s1⟩ := x; cases ok <;> rfl
  | TlsCallback h r p => simp [Call.forwardsProcessAttach, Call.isProcessAttach] at hc

/-- A process-attach request that is not forwarded does nothing. -/
theorem invoke_not_forwarded (b : Build) (u : UserCode) (fuel : Nat) (c : Call) (s : State)
    (hc : c.isProcessAttach = true) (hn : c.forwardsProcessAttach = false) :
    invoke b u fuel c s = some (c.successValue b, s) := by
  cases c with
  | KernelApcCallback c1 a1 a2 =>
    have h0 : c1 = 0 := by simpa [Call.forwardsProcessAttach] using hn
    simp [invoke, KernelApcCallback, h0, Call.successValue]
  | LdrLoadDllEntry p f n m =>
    cases m with
    | none => simp [invoke, LdrLoadDllEntry, Call.successValue]
    | some hd =>
      have h0 : hd = 0 := by simpa [Call.forwardsProcessAttach] using hn
      simp [invoke, LdrLoadDllEntry, h0, Call.successValue]
  | _ => simp_all [Call.forwardsProcessAttach]

/-! ## Attach requests in a run -/

theorem Attached_quiescent {b : Build} {s : State} (hs : Attached b s) : Quiescent b s :=
  Or.inl ⟨hs.2.1, hs.2.2⟩

theorem InitReportsSuccess_passive {u : UserCode} (hu : u.InitReportsSuccess) :
    u.InitPassive := by
  intro h r s
  obtain ⟨s1, h1, h2⟩ := hu h r s
  exact ⟨true, s1, h1, h2⟩

theorem initEvents_append (t t1 : List Event) :
    initEvents (t ++ t1) = initEvents t ++ initEvents t1 := by
  simp [initEvents]

theorem initEvents_lockEvents (s : State) : initEvents (lockEvents s) = [] := by
  unfold lockEvents
  split <;> rfl

theorem invoke_forward_attached (b : Build) (u : UserCode) (fuel : Nat) (s : State)
    (hs : Attached b s) (c : Call) (hc : c.forwardsProcessAttach = true) :
    ∃ s1, invoke b u (fuel + 1) c s = some (c.successValue b, s1) ∧ Attached b s1 ∧
      s1.g_hModule = s.g_hModule ∧ s1.user = s.user ∧ s1.trace = s.trace ∧
      s1.lockInit = s.lockInit := by
  obtain ⟨s1, h1, hi1, hr1, hl1, hm1, hu1, ht1, hk1⟩ :=
    EnsureInitialized_initialized b u fuel s (Attached_quiescent hs) hs.1 (c.identity b) DLL_PROCESS_ATTACH
  refine ⟨s1, ?_, ⟨hi1, hr1, hl1⟩, hm1, hu1, ?_, ?_⟩
  · rw [invoke_forward b u (fuel + 1) c s hc, h1]
    rfl
  · simpa [lockEvents, hs.2.1] using ht1
  · simpa [hs.2.1] using hk1

theorem invoke_forward_first (b : Build) (u : UserCode) (hu : u.InitReportsSuccess)
    (fuel : Nat) (s : State) (hq : Quiescent b s) (hi : s.g_bInitialized = false) (c : Call)
    (hc : c.forwardsProcessAttach = true) :
    ∃ s1, invoke b u (fuel + 1) c s = some (c.successValue b, s1) ∧ Attached b s1 ∧
      initEvents s1.trace = initEvents s.trace ++
        [Event.InitializeLibrary (c.identity b) DLL_PROCESS_ATTACH true] := by
  obtain ⟨res, sin, sout, s1, _, hcb, h1, hi1, hr1, hl1, _, _, ht1, _⟩ :=
    EnsureInitialized_uninitialized b u (InitReportsSuccess_passive hu) fuel s hq hi (c.identity b) DLL_PROCESS_ATTACH
  obtain ⟨s2, hcb2, _⟩ := hu (c.identity b) DLL_PROCESS_ATTACH sin
  have hres : res = true := by
    rw [hcb] at hcb2
    exact congrArg Prod.fst (Option.some.inj hcb2)
  subst hres
  refine ⟨s1, ?_, ⟨hi1, hr1, hl1⟩, ?_⟩
  · rw [invoke_forward b u (fuel + 1) c s hc, h1]
    rfl
  · rw [ht1, initEvents_append, initEvents_append, initEvents_lockEvents]
    simp [initEvents, Event.isInitializeLibrary]

theorem run_forward_attached (b : Build) (u : UserCode) (fuel : Nat) (calls : List Call)
    (hcalls : ∀ c ∈ calls, c.forwardsProcessAttach = true) (s : State) (hs : Attached b s) :
    ∃ s1, run b u (fuel + 1) calls s = some (calls.map (Call.successValue b), s1) ∧
      Attached b s1 ∧ s1.trace = s.trace ∧ s1.g_hModule = s.g_hModule := by
  induction calls generalizing s with
  | nil => exact ⟨s, rfl, hs, rfl, rfl⟩
  | cons c cs ih =>
    obtain ⟨s1, h1, ha1, hm1, _, ht1, _⟩ :=
      invoke_forward_attached b u fuel s hs c (hcalls c (List.mem_cons_self c cs))
    obtain ⟨s2, h2, ha2, ht2, hm2⟩ :=
      ih (fun d hd => hcalls d (List.mem_cons_of_mem c hd)) s1 ha1
    refine ⟨s2, ?_, ha2, by rw [ht2, ht1], by rw [hm2, hm1]⟩
    simp [run, h1, h2]

theorem run_forward_from_zero (b : Build) (u : UserCode) (hu : u.InitReportsSuccess)
    (fuel : Nat) (calls : List Call) (hne : calls ≠ [])
    (hcalls : ∀ c ∈ calls, c.forwardsProcessAttach = true) :
    ∃ s1, run b u (fuel + 1) calls State.zero = some (calls.map (Call.successValue b), s1) ∧
      s1.g_bInitialized = true ∧ initCalls s1.trace = 1 := by
  cases calls with
  | nil => exact absurd rfl hne
  | cons c cs =>
    have hq : Quiescent b State.zero := Or.inr ⟨rfl, rfl⟩
    obtain ⟨s1, h1, ha1, ht1⟩ :=
      invoke_forward_first b u hu fuel State.zero hq rfl c (hcalls c (List.mem_cons_self c cs))
    obtain ⟨s2, h2, ha2, ht2, _⟩ :=
      run_forward_attached b u fuel cs (fun d hd => hcalls d (List.mem_cons_of_mem c hd)) s1 ha1
    refine ⟨s2, ?_, ha2.1, ?_⟩
    · simp [run, h1, h2]
    · rw [initCalls, ht2, ht1]
      rfl

/-! ## C1 — exactly-once -/

/-- C1, as stated, fails: a run of one process-attach request through `KernelApcCallback`
with a null context returns without calling `InitializeLibrary`, and `g_bInitialized`
is still false afterwards (the same holds for `LdrLoadDllEntry` with a null handle). -/
theorem C1_null_context_attach_never_initializes :
    run nocrtBuild templateCode 1 [Call.KernelApcCallback 0 0 0] State.zero
        = some ([Ret.void], State.zero) ∧
      run nocrtBuild templateCode 1 [Call.LdrLoadDllEntry 0 0 0 (some 0)] State.zero
        = some ([Ret.NTSTATUS 0], State.zero) ∧
      State.zero.g_bInitialized = false ∧ initCalls State.zero.trace = 0 := by
  decide

/-- C1, amended: from the zero-initialized state, for every non-empty sequence of
process-attach requests that the entries forward to `DllMain` (any mix of `DllMain`,
`DllEntry`, `_DllMainCRTStartup`, `ReflectiveLoader`, `ThreadHijackEntry`,
`KernelApcCallback` with a non-null context, `LdrLoadDllEntry` with a non-null handle),
with an `InitializeLibrary` that reports success, after each of the calls (every prefix of
length `k ≥ 1`) the run has returned, every call has handed back its success value,
`InitializeLibrary` has run exactly once and `g_bInitialized` is true. -/
theorem C1_exactly_once_for_forwarded_attach (b : Build) (u : UserCode)
    (hu : u.InitReportsSuccess) (fuel : Nat) (hfuel : 0 < fuel) (calls : List Call)
    (hcalls : ∀ c ∈ calls, c.forwardsProcessAttach = true) (k : Nat) (hk1 : 1 ≤ k)
    (hk : k ≤ calls.length) :
    ∃ s, run b u fuel (calls.take k) State.zero
          = some ((calls.take k).map (Call.successValue b), s) ∧
      s.g_bInitialized = true ∧ initCalls s.trace = 1 := by
  obtain ⟨n, rfl⟩ : ∃ n, fuel = n + 1 := ⟨fuel - 1, by omega⟩
  have hne : calls.take k ≠ [] := by
    intro h0
    have hlen := congrArg List.length h0
    simp only [List.length_take, List.length_nil] at hlen
    omega
  exact run_forward_from_zero b u hu n (calls.take k) hne
    (fun c hc => hcalls c (List.mem_of_mem_take hc))

theorem templateCode_reports_success : templateCode.InitReportsSuccess := by
  intro h r s
  exact ⟨_, rfl, rfl, rfl, rfl, rfl, rfl, rfl⟩

/-- The scenario of C1 in both orders: `DllMain(0x1000, DLL_PROCESS_ATTACH, NULL)` and
`ReflectiveLoader(NULL)` in an image loaded at `0x1000`; `DllMain` returns `TRUE`,
`ReflectiveLoader` returns `0x1000`, `InitializeLibrary` has run once. -/
theorem C1_exactly_once_for_forwarded_attach_witness :
    (∃ s, run (crtBuild 0x1000) templateCode 1
        [Call.DllMain 0x1000 DLL_PROCESS_ATTACH 0, Call.ReflectiveLoader 0] State.zero
          = some ([Ret.BOOL true, Ret.DWORD 0x1000], s) ∧
        s.g_bInitialized = true ∧ initCalls s.trace = 1) ∧
    (∃ s, run (crtBuild 0x1000) templateCode 1
        [Call.ReflectiveLoader 0, Call.DllMain 0x1000 DLL_PROCESS_ATTACH 0] State.zero
          = some ([Ret.DWORD 0x1000, Ret.BOOL true], s) ∧
        s.g_bInitialized = true ∧ initCalls s.trace = 1) :=
  ⟨C1_exactly_once_for_forwarded_attach (crtBuild 0x1000) templateCode
      templateCode_reports_success 1 (by decide)
      [Call.DllMain 0x1000 DLL_PROCESS_ATTACH 0, Call.ReflectiveLoader 0]
      (by decide) 2 (by decide) (by decide),
   C1_exactly_once_for_forwarded_attach (crtBuild 0x1000) templateCode
      templateCode_reports_success 1 (by decide)
      [Call.ReflectiveLoader 0, Call.DllMain 0x1000 DLL_PROCESS_ATTACH 0]
      (by decide) 2 (by decide) (by decide)⟩

/-! ## C2 — attach when already initialized -/

/-- C2, as stated, fails in its last clause: in a state reached by a successful attach
(`g_bInitialized` true, lock constructed and free), `ReflectiveLoader(NULL)` in a build
with `NO_CRT` leaves the state as it is but hands back 0, the value that reports
failure. -/
theorem C2_reflective_loader_reports_zero_when_initialized :
    DllMain nocrtBuild templateCode 1 0x1000 DLL_PROCESS_ATTACH 0 State.zero
        = some (true, attachedExample) ∧
      attachedExample.g_bInitialized = true ∧ attachedExample.g_bLockInitialized = true ∧
      (Call.ReflectiveLoader 0).isProcessAttach = true ∧
      invoke nocrtBuild templateCode 1 (Call.ReflectiveLoader 0) attachedExample
        = some (Ret.DWORD 0, attachedExample) := by
  decide

/-- C2, amended: in every state in which `g_bInitialized` is true and the lock is
constructed and free, a process-attach request through any entry returns, adds nothing to
the trace (no user routine runs), leaves `g_hModule`, `g_bInitialized` and
`g_bLockInitialized` unchanged whatever identity was passed, and hands back the
success value of the entry (`Call.successValue`): `TRUE`, 1, status 0, or for
`ReflectiveLoader` the identity modulo 2^32, which is 0 when that is zero. -/
theorem C2_attach_is_idempotent (b : Build) (u : UserCode) (fuel : Nat) (hfuel : 0 < fuel)
    (s : State) (hs : Attached b s) (c : Call) (hc : c.isProcessAttach = true) :
    ∃ s1, invoke b u fuel c s = some (c.successValue b, s1) ∧ s1.trace = s.trace ∧
      s1.g_hModule = s.g_hModule ∧ s1.g_bInitialized = s.g_bInitialized ∧
      s1.g_bLockInitialized = s.g_bLockInitialized := by
  obtain ⟨n, rfl⟩ : ∃ n, fuel = n + 1 := ⟨fuel - 1, by omega⟩
  cases hfw : c.forwardsProcessAttach with
  | true =>
    obtain ⟨s1, h1, ha1, hm1, _, ht1, _⟩ := invoke_forward_attached b u n s hs c hfw
    exact ⟨s1, h1, ht1, hm1, by rw [ha1.1, hs.1], by rw [ha1.2.1, hs.2.1]⟩
  | false => exact ⟨s, invoke_not_forwarded b u (n + 1) c s hc hfw, rfl, rfl, rfl, rfl⟩

/-- C2 at a concrete input: `ThreadHijackEntry(0x2000)` after a successful attach with
identity `0x1000`. -/
theorem C2_attach_is_idempotent_witness :
    ∃ s1, invoke nocrtBuild failingCode 1 (Call.ThreadHijackEntry 0x2000) attachedExample
        = some (Ret.DWORD 1, s1) ∧ s1.trace = attachedExample.trace ∧
      s1.g_hModule = 0x1000 ∧ s1.g_bInitialized = true ∧ s1.g_bLockInitialized = true :=
  C2_attach_is_idempotent nocrtBuild failingCode 1 (by decide) attachedExample
    ⟨rfl, rfl, fun _ => rfl⟩ (Call.ThreadHijackEntry 0x2000) rfl

/-! ## C3 — retry after failure -/

theorem retryCode_passive : retryCode.InitPassive := by
  intro h r s
  by_cases h0 : s.user = 0
  · exact ⟨false, { s with user := 1 }, by simp [retryCode, h0], rfl, rfl, rfl, rfl, rfl, rfl⟩
  · exact ⟨true, { s with user := s.user + 1 }, by simp [retryCode, h0],
      rfl, rfl, rfl, rfl, rfl, rfl⟩

theorem invoke_forward_uninitialized (b : Build) (u : UserCode) (hu : u.InitPassive)
    (fuel : Nat) (s : State) (hq : Quiescent b s) (hi : s.g_bInitialized = false) (c : Call)
    (hc : c.forwardsProcessAttach = true) :
    ∃ res s1, invoke b u (fuel + 1) c s
        = some (if res then c.successValue b else c.failureValue, s1) ∧
      s1.g_bInitialized = res ∧ Quiescent b s1 ∧
      initEvents s1.trace = initEvents s.trace ++
        [Event.InitializeLibrary (c.identity b) DLL_PROCESS_ATTACH res] := by
  obtain ⟨res, sin, sout, s1, _, hcb, h1, hi1, hr1, hl1, _, _, ht1, _⟩ :=
    EnsureInitialized_uninitialized b u hu fuel s hq hi (c.identity b) DLL_PROCESS_ATTACH
  refine ⟨res, s1, ?_, hi1, Or.inl ⟨hr1, hl1⟩, ?_⟩
  · rw [invoke_forward b u (fuel + 1) c s hc, h1]
    rfl
  · rw [ht1, initEvents_append, initEvents_append, initEvents_lockEvents]
    simp [initEvents, Event.isInitializeLibrary]

/-- C3: for an `InitializeLibrary` that returns and leaves the gate alone, the first
forwarded process-attach request on the zero state returns; `InitializeLibrary` has then
run exactly once (no retry inside the call), and the call hands back, and
`g_bInitialized` holds, what that invocation reported (`r1`).  If it reported failure
(`r1 = false`: the call hands back its failure value and `g_bInitialized` is false), a
second request returns, `InitializeLibrary` has then run exactly twice, and
`g_bInitialized` is true exactly when the second invocation reported success (`r2`). -/
theorem C3_retry_after_failure (b : Build) (u : UserCode) (hu : u.InitPassive) (fuel : Nat)
    (hfuel : 0 < fuel) (c1 c2 : Call) (hc1 : c1.forwardsProcessAttach = true)
    (hc2 : c2.forwardsProcessAttach = true) :
    ∃ r1 s1, invoke b u fuel c1 State.zero
        = some (if r1 then c1.successValue b else c1.failureValue, s1) ∧
      initEvents s1.trace = [Event.InitializeLibrary (c1.identity b) DLL_PROCESS_ATTACH r1] ∧
      s1.g_bInitialized = r1 ∧
      (r1 = false → ∃ r2 s2, invoke b u fuel c2 s1
          = some (if r2 then c2.successValue b else c2.failureValue, s2) ∧
        initEvents s2.trace =
          [Event.InitializeLibrary (c1.identity b) DLL_PROCESS_ATTACH false,
           Event.InitializeLibrary (c2.identity b) DLL_PROCESS_ATTACH r2] ∧
        s2.g_bInitialized = r2) := by
  obtain ⟨n, rfl⟩ : ∃ n, fuel = n + 1 := ⟨fuel - 1, by omega⟩
  obtain ⟨r1, s1, h1, hi1, hq1, ht1⟩ :=
    invoke_forward_uninitialized b u hu n State.zero (Or.inr ⟨rfl, rfl⟩) rfl c1 hc1
  refine ⟨r1, s1, h1, ht1, hi1, ?_⟩
  intro hr1
  subst hr1
  obtain ⟨r2, s2, h2, hi2, _, ht2⟩ := invoke_forward_uninitialized b u hu n s1 hq1 hi1 c2 hc2
  exact ⟨r2, s2, h2, by rw [ht2, ht1]; rfl, hi2⟩

/-- C3 at a concrete input: user code that fails the first time, `DllMain` with identity
`0x1000` called twice. -/
theorem C3_retry_after_failure_witness :
    ∃ r1 s1, invoke nocrtBuild retryCode 1 (Call.DllMain 0x1000 DLL_PROCESS_ATTACH 0) State.zero
        = some (if r1 then Ret.BOOL true else Ret.BOOL false, s1) ∧
      initEvents s1.trace = [Event.InitializeLibrary 0x1000 DLL_PROCESS_ATTACH r1] ∧
      s1.g_bInitialized = r1 ∧
      (r1 = false → ∃ r2 s2,
        invoke nocrtBuild retryCode 1 (Call.DllMain 0x1000 DLL_PROCESS_ATTACH 0) s1
          = some (if r2 then Ret.BOOL true else Ret.BOOL false, s2) ∧
        initEvents s2.trace =
          [Event.InitializeLibrary 0x1000 DLL_PROCESS_ATTACH false,
           Event.InitializeLibrary 0x1000 DLL_PROCESS_ATTACH r2] ∧
        s2.g_bInitialized = r2) :=
  C3_retry_after_failure nocrtBuild retryCode retryCode_passive 1 (by decide)
    (Call.DllMain 0x1000 DLL_PROCESS_ATTACH 0) (Call.DllMain 0x1000 DLL_PROCESS_ATTACH 0) rfl rfl

/-! ## C4 — attach after detach -/

theorem EnsureInitialized_after_delete (b : Build) (u : UserCode) (fuel : Nat) (h : HINSTANCE)
    (r : DWORD) (s : State) (hr : s.g_bLockInitialized = false) (hk : s.lockInit ≠ 0) :
    EnsureInitialized b u fuel h r s = none := by
  have hw : ensureLock b fuel s = none := by
    have hs : ({ s with lockInit := s.lockInit } : State) = s := rfl
    simp [ensureLock, hr, InterlockedCompareExchange, hk, hs, waitLockInitialized_never]
  simp [EnsureInitialized, hw]

/-- C4 on the code: in either build and with the user code of the repository, a
process-attach and a process-detach both return `TRUE` and leave `g_bInitialized` and
`g_bLockInitialized` false but `lockInit` at 1; a following process-attach then returns
for no amount of fuel: it waits for `g_bLockInitialized` for ever, constructs no
lock and never calls `InitializeLibrary`. -/
theorem C4_attach_after_detach_never_returns (b : Build) (fuel : Nat) :
    ∃ s1 s2, DllMain b templateCode (fuel + 1) 0x1000 DLL_PROCESS_ATTACH 0 State.zero
        = some (true, s1) ∧
      DllMain b templateCode (fuel + 1) 0x1000 DLL_PROCESS_DETACH 0 s1 = some (true, s2) ∧
      s2.g_bInitialized = false ∧ s2.g_bLockInitialized = false ∧ s2.lockInit = 1 ∧
      ∀ fuel2, DllMain b templateCode fuel2 0x1000 DLL_PROCESS_ATTACH 0 s2 = none := by
  obtain ⟨res, sin, sout, s1, _, hcb, h1, hi1, hr1, _, _, _, _, hk1⟩ :=
    EnsureInitialized_uninitialized b templateCode (InitReportsSuccess_passive templateCode_reports_success) fuel
      State.zero (Or.inr ⟨rfl, rfl⟩) rfl 0x1000 DLL_PROCESS_ATTACH
  have hres : res = true := by
    simp only [templateCode, Option.some.injEq, Prod.mk.injEq] at hcb
    exact hcb.1.symm
  subst hres
  have hk : s1.lockInit = 1 := by simpa [State.zero] using hk1
  have hdet : ∃ s2, DllMain b templateCode (fuel + 1) 0x1000 DLL_PROCESS_DETACH 0 s1
      = some (true, s2) ∧ s2.g_bInitialized = false ∧ s2.g_bLockInitialized = false ∧
      s2.lockInit = s1.lockInit := by
    cases hb : b.NO_CRT <;> cases hn : s1.nocrt_initialized <;>
      simp [DllMain, DLL_PROCESS_ATTACH, DLL_PROCESS_DETACH, hi1, hr1, callCleanupLibrary,
        templateCode, DeleteCriticalSection, hb, nocrt_Initialize, hn]
  obtain ⟨s2, h2, hi2, hr2, hk2⟩ := hdet
  refine ⟨s1, s2, by rw [DllMain_attach_eq, h1], h2, hi2, hr2, by rw [hk2, hk], ?_⟩
  intro fuel2
  rw [DllMain_attach_eq]
  exact EnsureInitialized_after_delete b templateCode fuel2 0x1000 DLL_PROCESS_ATTACH s2 hr2
    (by rw [hk2, hk]; decide)

/-! ## C5 — thread notifications -/

theorem templateCode_handlers_passive : templateCode.HandlersPassive :=
  ⟨fun _ _ s => ⟨s, rfl, ⟨rfl, rfl, rfl, rfl, rfl, rfl⟩, rfl⟩,
   fun _ s => ⟨s, rfl, ⟨rfl, rfl, rfl, rfl, rfl, rfl⟩, rfl⟩,
   fun _ s => ⟨s, rfl, ⟨rfl, rfl, rfl, rfl, rfl, rfl⟩, rfl⟩⟩

theorem callThreadAttachHandler_passive (u : UserCode) (hu : u.HandlersPassive)
    (h : HINSTANCE) (s : State) :
    ∃ s1, callThreadAttachHandler u h s = some s1 ∧
      s1.trace = s.trace ++ [Event.ThreadAttachHandler h] ∧ InitStateEq s s1 := by
  obtain ⟨s0, h0, ⟨f1, f2, f3, f4, _, f6⟩, fm⟩ := hu.2.1 h s
  exact ⟨{ s0 with trace := s0.trace ++ [Event.ThreadAttachHandler h] },
    by simp only [callThreadAttachHandler, h0], by simp [f6], fm, f1, f3, f4, f2⟩

theorem callThreadDetachHandler_passive (u : UserCode) (hu : u.HandlersPassive)
    (h : HINSTANCE) (s : State) :
    ∃ s1, callThreadDetachHandler u h s = some s1 ∧
      s1.trace = s.trace ++ [Event.ThreadDetachHandler h] ∧ InitStateEq s s1 := by
  obtain ⟨s0, h0, ⟨f1, f2, f3, f4, _, f6⟩, fm⟩ := hu.2.2 h s
  exact ⟨{ s0 with trace := s0.trace ++ [Event.ThreadDetachHandler h] },
    by simp only [callThreadDetachHandler, h0], by simp [f6], fm, f1, f3, f4, f2⟩

/-- C5: for thread handlers that return and leave the gate alone, in every state a
`DLL_THREAD_ATTACH` (resp. `DLL_THREAD_DETACH`) notification delivered to `DllMain` or to
`TlsCallback` returns; when `g_bInitialized` is true it adds to the trace exactly one
invocation of `ThreadAttachHandler` (resp. `ThreadDetachHandler`) with the identity
supplied and leaves the Initialization State unchanged; when `g_bInitialized` is false it
changes nothing at all; `DllMain` returns `TRUE` in both cases. -/
theorem C5_thread_notification_gating (b : Build) (u : UserCode) (hu : u.HandlersPassive)
    (fuel : Nat) (h : HINSTANCE) (p : LPVOID) (s : State) :
    (s.g_bInitialized = true →
      (∃ s1, DllMain b u fuel h DLL_THREAD_ATTACH p s = some (true, s1) ∧
        s1.trace = s.trace ++ [Event.ThreadAttachHandler h] ∧ InitStateEq s s1) ∧
      (∃ s1, DllMain b u fuel h DLL_THREAD_DETACH p s = some (true, s1) ∧
        s1.trace = s.trace ++ [Event.ThreadDetachHandler h] ∧ InitStateEq s s1) ∧
      (∃ s1, TlsCallback u h DLL_THREAD_ATTACH p s = some s1 ∧
        s1.trace = s.trace ++ [Event.ThreadAttachHandler h] ∧ InitStateEq s s1) ∧
      (∃ s1, TlsCallback u h DLL_THREAD_DETACH p s = some s1 ∧
        s1.trace = s.trace ++ [Event.ThreadDetachHandler h] ∧ InitStateEq s s1)) ∧
    (s.g_bInitialized = false →
      DllMain b u fuel h DLL_THREAD_ATTACH p s = some (true, s) ∧
      DllMain b u fuel h DLL_THREAD_DETACH p s = some (true, s) ∧
      TlsCallback u h DLL_THREAD_ATTACH p s = some s ∧
      TlsCallback u h DLL_THREAD_DETACH p s = some s) := by
  constructor
  · intro hi
    obtain ⟨sa, ha, hta, hea⟩ := callThreadAttachHandler_passive u hu h s
    obtain ⟨sd, hd, htd, hed⟩ := callThreadDetachHandler_passive u hu h s
    refine ⟨⟨sa, ?_, hta, hea⟩, ⟨sd, ?_, htd, hed⟩, ⟨sa, ?_, hta, hea⟩, ⟨sd, ?_, htd, hed⟩⟩
    · simp [DllMain, DLL_THREAD_ATTACH, DLL_PROCESS_ATTACH, DLL_PROCESS_DETACH, hi, ha]
    · simp [DllMain, DLL_THREAD_ATTACH, DLL_THREAD_DETACH, DLL_PROCESS_ATTACH,
        DLL_PROCESS_DETACH, hi, hd]
    · simp [TlsCallback, DLL_THREAD_ATTACH, DLL_PROCESS_ATTACH, hi, ha]
    · simp [TlsCallback, DLL_THREAD_ATTACH, DLL_THREAD_DETACH, DLL_PROCESS_ATTACH, hi, hd]
  · intro hi
    refine ⟨?_, ?_, ?_, ?_⟩
    · simp [DllMain, DLL_THREAD_ATTACH, DLL_PROCESS_ATTACH, DLL_PROCESS_DETACH, hi]
    · simp [DllMain, DLL_THREAD_ATTACH, DLL_THREAD_DETACH, DLL_PROCESS_ATTACH,
        DLL_PROCESS_DETACH, hi]
    · simp [TlsCallback, DLL_THREAD_ATTACH, DLL_PROCESS_ATTACH, hi]
    · simp [TlsCallback, DLL_THREAD_ATTACH, DLL_THREAD_DETACH, DLL_PROCESS_ATTACH, hi]

/-- C5 at concrete inputs: a thread-attach notification with identity `0x1000` after a
successful attach runs the handler once; on the zero state it runs nothing. -/
theorem C5_thread_notification_gating_witness :
    (∃ s1, DllMain nocrtBuild templateCode 1 0x1000 DLL_THREAD_ATTACH 0 attachedExample
        = some (true, s1) ∧
      s1.trace = attachedExample.trace ++ [Event.ThreadAttachHandler 0x1000] ∧
      InitStateEq attachedExample s1) ∧
    DllMain nocrtBuild templateCode 1 0x1000 DLL_THREAD_ATTACH 0 State.zero
      = some (true, State.zero) :=
  ⟨((C5_thread_notification_gating nocrtBuild templateCode templateCode_handlers_passive 1
      0x1000 0 attachedExample).1 rfl).1,
   ((C5_thread_notification_gating nocrtBuild templateCode templateCode_handlers_passive 1
      0x1000 0 State.zero).2 rfl).1⟩

/-! ## C6 — what `EnsureInitialized` returns -/

theorem ensureLock_some (b : Build) (fuel : Nat) (s s1 : State)
    (h : ensureLock b fuel s = some s1) :
    s1.g_bLockInitialized = true ∧ s1.g_hModule = s.g_hModule ∧
      s1.g_bInitialized = s.g_bInitialized ∧ s1.user = s.user ∧
      s1.trace = s.trace ++ lockEvents s ∧
      s1.lockInit = (if s.g_bLockInitialized then s.lockInit else 1) := by
  cases hr : s.g_bLockInitialized with
  | true =>
    have hs : s1 = s := by
      have h2 : ensureLock b fuel s = some s := by simp [ensureLock, hr]
      rw [h2] at h
      exact (Option.some.inj h).symm
    subst hs
    simp [lockEvents, hr]
  | false =>
    by_cases hk : s.lockInit = 0
    · obtain ⟨s2, h2, hr2, _, hm2, hi2, hu2, ht2, hk2⟩ :=
        ensureLock_quiescent b fuel s (Or.inr ⟨hr, hk⟩)
      rw [h2] at h
      have hs : s2 = s1 := Option.some.inj h
      subst hs
      exact ⟨hr2, hm2, hi2, hu2, ht2, by simpa [hr] using hk2⟩
    · have hs : ({ s with lockInit := s.lockInit } : State) = s := rfl
      have h2 : ensureLock b fuel s = none := by
        simp [ensureLock, hr, InterlockedCompareExchange, hk, hs, waitLockInitialized_never]
      rw [h2] at h
      exact absurd h (by simp)

theorem EnterCriticalSection_some (b : Build) (fuel : Nat) (s s2 : State)
    (h : EnterCriticalSection b fuel s = some s2) : SameVars s s2 := by
  cases hb : b.NO_CRT with
  | false =>
    simp only [EnterCriticalSection, hb, Bool.false_eq_true, if_false, Option.some.injEq] at h
    subst h
    exact ⟨rfl, rfl, rfl, rfl, rfl, rfl⟩
  | true =>
    simp only [EnterCriticalSection, hb, if_true] at h
    cases hsp : nocrt_spin fuel (nocrt_Initialize s).2.g_InitLock with
    | none => simp [hsp] at h
    | some cs =>
      simp only [hsp, Option.some.injEq] at h
      subst h
      cases hn : s.nocrt_initialized <;> simp [SameVars, nocrt_Initialize, hn]

theorem EnsureInitialized_some (b : Build) (u : UserCode) (hu : u.InitPassive) (fuel : Nat)
    (h : HINSTANCE) (r : DWORD) (s : State) (res : BOOL) (s1 : State)
    (hE : EnsureInitialized b u fuel h r s = some (res, s1)) :
    s1.g_bInitialized = res ∧ s1.g_bLockInitialized = true ∧
      s1.lockInit = (if s.g_bLockInitialized then s.lockInit else 1) ∧
      (s.g_bInitialized = true →
        res = true ∧ s1.g_hModule = s.g_hModule ∧ s1.trace = s.trace ++ lockEvents s) ∧
      (s.g_bInitialized = false →
        s1.trace = s.trace ++ lockEvents s ++ [Event.InitializeLibrary h r res] ∧
        ∃ sin sout, sin.g_hModule = h ∧ u.InitializeLibrary h r sin = some (res, sout) ∧
          s1.g_hModule = sout.g_hModule) := by
  unfold EnsureInitialized at hE
  cases h1 : ensureLock b fuel s with
  | none => simp [h1] at hE
  | some sa =>
    obtain ⟨hra, hma, hia, _, hta, hka⟩ := ensureLock_some b fuel s sa h1
    cases h2 : EnterCriticalSection b fuel sa with
    | none => simp [h1, h2] at hE
    | some sb =>
      obtain ⟨hmb, hib, hrb, hkb, _, htb⟩ := EnterCriticalSection_some b fuel sa sb h2
      cases hi : s.g_bInitialized with
      | true =>
        have h3 := initOnce_done u h r sb (by rw [hib, hia, hi])
        simp only [h1, h2, h3, Option.some.injEq, Prod.mk.injEq] at hE
        obtain ⟨hres, hs1⟩ := hE
        obtain ⟨⟨hm4, hi4, hr4, hk4, _, ht4⟩, _⟩ := LeaveCriticalSection_spec b sb
        subst hs1
        subst hres
        refine ⟨by rw [hi4, hib, hia, hi], by rw [hr4, hrb, hra], by rw [hk4, hkb, hka],
          fun _ => ⟨rfl, by rw [hm4, hmb, hma], by rw [ht4, htb, hta]⟩, fun hc => ?_⟩
        exact absurd hc (by simp)
      | false =>
        obtain ⟨res3, sout, sc, hcb, h3, hm3, _, hi3, _, hr3, hk3, _, ht3⟩ :=
          initOnce_first u hu h r sb (by rw [hib, hia, hi])
        simp only [h1, h2, h3, Option.some.injEq, Prod.mk.injEq] at hE
        obtain ⟨hres, hs1⟩ := hE
        obtain ⟨⟨hm4, hi4, hr4, hk4, _, ht4⟩, _⟩ := LeaveCriticalSection_spec b sc
        subst hs1
        subst hres
        refine ⟨by rw [hi4, hi3], by rw [hr4, hr3, hrb, hra], by rw [hk4, hk3, hkb, hka],
          fun hc => absurd hc (by simp), fun _ => ⟨by rw [ht4, ht3, htb, hta], _, sout, rfl, hcb,
            by rw [hm4, hm3]⟩⟩

/-- C6: for an `InitializeLibrary` that returns and leaves the gate alone, in every
starting state: whenever `EnsureInitialized` returns, the boolean it returns is the value
of `g_bInitialized` after the call, and if `g_bInitialized` went from false to true then
the call added exactly one invocation of `InitializeLibrary`, with the arguments of the
call and the result `TRUE`; and it does return (given fuel) in every state in which the
lock is free, or not yet constructed with `lockInit` still 0. -/
theorem C6_EnsureInitialized_returns_initialized (b : Build) (u : UserCode)
    (hu : u.InitPassive) (fuel : Nat) (h : HINSTANCE) (r : DWORD) (s : State) :
    (∀ res s1, EnsureInitialized b u fuel h r s = some (res, s1) →
      res = s1.g_bInitialized ∧
      (s.g_bInitialized = false → s1.g_bInitialized = true →
        initEvents s1.trace = initEvents s.trace ++ [Event.InitializeLibrary h r true])) ∧
    (0 < fuel → Quiescent b s → ∃ res s1, EnsureInitialized b u fuel h r s = some (res, s1)) := by
  constructor
  · intro res s1 hE
    obtain ⟨hi1, _, _, _, hun⟩ := EnsureInitialized_some b u hu fuel h r s res s1 hE
    refine ⟨hi1.symm, fun hi ht => ?_⟩
    obtain ⟨ht1, _⟩ := hun hi
    have hres : res = true := by rw [← hi1, ht]
    subst hres
    rw [ht1, initEvents_append, initEvents_append, initEvents_lockEvents]
    simp [initEvents, Event.isInitializeLibrary]
  · intro hfuel hq
    obtain ⟨n, rfl⟩ : ∃ n, fuel = n + 1 := ⟨fuel - 1, by omega⟩
    cases hi : s.g_bInitialized with
    | true =>
      obtain ⟨s1, h1, _⟩ := EnsureInitialized_initialized b u n s hq hi h r
      exact ⟨true, s1, h1⟩
    | false =>
      obtain ⟨res, _, _, s1, _, _, h1, _⟩ := EnsureInitialized_uninitialized b u hu n s hq hi h r
      exact ⟨res, s1, h1⟩

/-- C6 at a concrete input: the first call on the zero state with user code whose first
attempt fails. -/
theorem C6_EnsureInitialized_returns_initialized_witness :
    ∃ res s1, EnsureInitialized nocrtBuild retryCode 1 0x1000 DLL_PROCESS_ATTACH State.zero
        = some (res, s1) ∧ res = s1.g_bInitialized :=
  match (C6_EnsureInitialized_returns_initialized nocrtBuild retryCode retryCode_passive 1
      0x1000 DLL_PROCESS_ATTACH State.zero).2 (by decide) (Or.inr ⟨rfl, rfl⟩) with
  | ⟨res, s1, h1⟩ =>
    ⟨res, s1, h1, ((C6_EnsureInitialized_returns_initialized nocrtBuild retryCode
      retryCode_passive 1 0x1000 DLL_PROCESS_ATTACH State.zero).1 res s1 h1).1⟩

/-! ## C7 — the identity after a failed initialization -/

theorem InitReportsFailure_passive {u : UserCode} (hu : u.InitReportsFailure) :
    u.InitPassive := by
  intro h r s
  obtain ⟨s1, h1, h2, _⟩ := hu h r s
  exact ⟨false, s1, h1, h2⟩

theorem failingCode_reports_failure : failingCode.InitReportsFailure := by
  intro h r s
  exact ⟨s, rfl, ⟨rfl, rfl, rfl, rfl, rfl, rfl⟩, rfl⟩

/-- C7: for every non-null identity `h`, when `InitializeLibrary` reports failure (and
leaves the gate and the cached identity alone), `DllMain(h, DLL_PROCESS_ATTACH, p)` on the
zero state returns `FALSE`, `g_bInitialized` stays false, and `GetModuleBase()` called
next returns `h`. -/
theorem C7_identity_recorded_on_init_failure (b : Build) (u : UserCode)
    (hu : u.InitReportsFailure) (fuel : Nat) (hfuel : 0 < fuel) (h : HINSTANCE) (hh : h ≠ 0)
    (p : LPVOID) :
    ∃ s1, DllMain b u fuel h DLL_PROCESS_ATTACH p State.zero = some (false, s1) ∧
      s1.g_bInitialized = false ∧ GetModuleBase b s1 = h := by
  obtain ⟨n, rfl⟩ : ∃ n, fuel = n + 1 := ⟨fuel - 1, by omega⟩
  obtain ⟨res, sin, sout, s1, hsin, hcb, h1, hi1, _, _, hm1, _⟩ :=
    EnsureInitialized_uninitialized b u (InitReportsFailure_passive hu) n State.zero (Or.inr ⟨rfl, rfl⟩) rfl h
      DLL_PROCESS_ATTACH
  obtain ⟨s2, hcb2, _, hm2⟩ := hu h DLL_PROCESS_ATTACH sin
  rw [hcb] at hcb2
  have hpair := Option.some.inj hcb2
  have hres : res = false := congrArg Prod.fst hpair
  have hso : sout = s2 := congrArg Prod.snd hpair
  subst hres
  subst hso
  have hm : s1.g_hModule = h := by rw [hm1, hm2, hsin]
  refine ⟨s1, by rw [DllMain_attach_eq, h1], hi1, ?_⟩
  have hne : s1.g_hModule ≠ 0 := by rw [hm]; exact hh
  unfold GetModuleBase
  rw [if_pos hne, hm]

/-- C7 at the input of the specification: identity `0x1000`, failing initialization. -/
theorem C7_identity_recorded_on_init_failure_witness :
    ∃ s1, DllMain nocrtBuild failingCode 1 0x1000 DLL_PROCESS_ATTACH 0 State.zero
        = some (false, s1) ∧
      s1.g_bInitialized = false ∧ GetModuleBase nocrtBuild s1 = 0x1000 :=
  C7_identity_recorded_on_init_failure nocrtBuild failingCode failingCode_reports_failure 1
    (by decide) 0x1000 (by decide) 0

/-! ## C9 — what `ReflectiveLoader` hands back -/

/-- C9, as stated, fails: a successful attach is not always told apart from a failure.
In an image loaded at `0x100000000`, `ReflectiveLoader(NULL)` resolves that identity, the
attach succeeds (`g_bInitialized` true, `g_hModule = 0x100000000`) and the value handed
back is 0, not the identity; with `NO_CRT`, `ReflectiveLoader(NULL)` attaches with a null
identity and also hands back 0. -/
theorem C9_successful_attach_returns_zero :
    (ReflectiveLoader (crtBuild 0x100000000) templateCode 1 0 State.zero).map
        (fun x => (x.1, x.2.g_bInitialized, x.2.g_hModule)) = some (0, true, 0x100000000) ∧
    (ReflectiveLoader nocrtBuild templateCode 1 0 State.zero).map
        (fun x => (x.1, x.2.g_bInitialized, x.2.g_hModule)) = some (0, true, 0) := by
  decide

/-- C9, amended: for an `InitializeLibrary` that returns and leaves the gate alone, in
every state in which the lock can be obtained, `ReflectiveLoader(p)` returns; when the
process-attach has succeeded (`g_bInitialized` true afterwards) it hands back the resolved
identity modulo 2^32, when it has failed it hands back 0, so a non-zero value always
means success.  The resolved identity is `p` when `p` is not null, else the allocation
base the memory query reports for the address of `ReflectiveLoader`, else null. -/
theorem C9_ReflectiveLoader_result (b : Build) (u : UserCode) (hu : u.InitPassive)
    (fuel : Nat) (hfuel : 0 < fuel) (p : LPVOID) (s : State) (hq : Quiescent b s) :
    ∃ r s1, ReflectiveLoader b u fuel p s = some (r, s1) ∧
      (s1.g_bInitialized = true → r = resolveIdentity b b.addr_ReflectiveLoader p % 2 ^ 32) ∧
      (s1.g_bInitialized = false → r = 0) ∧
      (r ≠ 0 → s1.g_bInitialized = true) ∧
      (p ≠ 0 → resolveIdentity b b.addr_ReflectiveLoader p = p) ∧
      (p = 0 → resolveIdentity b b.addr_ReflectiveLoader p =
        if (VirtualQuery b b.addr_ReflectiveLoader MEMORY_BASIC_INFORMATION.zero sizeof_mbi).1 ≠ 0
        then (VirtualQuery b b.addr_ReflectiveLoader MEMORY_BASIC_INFORMATION.zero
          sizeof_mbi).2.AllocationBase
        else 0) := by
  obtain ⟨n, rfl⟩ : ∃ n, fuel = n + 1 := ⟨fuel - 1, by omega⟩
  have hres : (p ≠ 0 → resolveIdentity b b.addr_ReflectiveLoader p = p) ∧
      (p = 0 → resolveIdentity b b.addr_ReflectiveLoader p =
        if (VirtualQuery b b.addr_ReflectiveLoader MEMORY_BASIC_INFORMATION.zero sizeof_mbi).1 ≠ 0
        then (VirtualQuery b b.addr_ReflectiveLoader MEMORY_BASIC_INFORMATION.zero
          sizeof_mbi).2.AllocationBase
        else 0) := by
    constructor
    · intro hp
      simp [resolveIdentity, hp]
    · intro hp
      subst hp
      simp [resolveIdentity]
  have hE : ∃ res s1, EnsureInitialized b u (n + 1)
      (resolveIdentity b b.addr_ReflectiveLoader p) DLL_PROCESS_ATTACH s = some (res, s1) ∧
      s1.g_bInitialized = res := by
    cases hi : s.g_bInitialized with
    | true =>
      obtain ⟨s1, h1, hi1, _⟩ := EnsureInitialized_initialized b u n s hq hi
        (resolveIdentity b b.addr_ReflectiveLoader p) DLL_PROCESS_ATTACH
      exact ⟨true, s1, h1, hi1⟩
    | false =>
      obtain ⟨res, _, _, s1, _, _, h1, hi1, _⟩ := EnsureInitialized_uninitialized b u hu n s hq
        hi (resolveIdentity b b.addr_ReflectiveLoader p) DLL_PROCESS_ATTACH
      exact ⟨res, s1, h1, hi1⟩
  obtain ⟨res, s1, h1, hi1⟩ := hE
  cases res with
  | true =>
    refine ⟨resolveIdentity b b.addr_ReflectiveLoader p % 2 ^ 32, s1, ?_, fun _ => rfl,
      fun hc => ?_, fun _ => hi1, hres.1, hres.2⟩
    · simp [ReflectiveLoader, DllMain_attach_eq, h1]
    · rw [hi1] at hc
      exact absurd hc (by simp)
  | false =>
    refine ⟨0, s1, ?_, fun hc => ?_, fun _ => rfl, fun hc => absurd rfl hc, hres.1, hres.2⟩
    · simp [ReflectiveLoader, DllMain_attach_eq, h1]
    · rw [hi1] at hc
      exact absurd hc (by simp)

/-- C9 at a concrete input: `ReflectiveLoader(0x1000)` on the zero state with the user code
of the repository. -/
theorem C9_ReflectiveLoader_result_witness :
    ∃ r s1, ReflectiveLoader nocrtBuild templateCode 1 0x1000 State.zero = some (r, s1) ∧
      (s1.g_bInitialized = true →
        r = resolveIdentity nocrtBuild nocrtBuild.addr_ReflectiveLoader 0x1000 % 2 ^ 32) ∧
      (s1.g_bInitialized = false → r = 0) ∧ (r ≠ 0 → s1.g_bInitialized = true) :=
  match C9_ReflectiveLoader_result nocrtBuild templateCode (InitReportsSuccess_passive templateCode_reports_success)
      1 (by decide) 0x1000 State.zero (Or.inr ⟨rfl, rfl⟩) with
  | ⟨r, s1, h1, h2, h3, h4, _⟩ => ⟨r, s1, h1, h2, h3, h4⟩

/-! ## C10 — `GetModuleBase` -/

/-- C10: in every state `GetModuleBase()` returns a value (it is a total function of the
state): the cached `g_hModule` when that is not null; otherwise the allocation base
reported by `VirtualQuery` for the address of `GetModuleBase` when the query returns
non-zero, and null when the query returns 0, which the `VirtualQuery` of a `NO_CRT` build
always does. -/
theorem C10_GetModuleBase_result (b : Build) (s : State) :
    (s.g_hModule ≠ 0 → GetModuleBase b s = s.g_hModule) ∧
    (s.g_hModule = 0 →
      (VirtualQuery b b.addr_GetModuleBase MEMORY_BASIC_INFORMATION.zero sizeof_mbi).1 ≠ 0 →
      GetModuleBase b s = (VirtualQuery b b.addr_GetModuleBase MEMORY_BASIC_INFORMATION.zero
        sizeof_mbi).2.AllocationBase) ∧
    (s.g_hModule = 0 →
      (VirtualQuery b b.addr_GetModuleBase MEMORY_BASIC_INFORMATION.zero sizeof_mbi).1 = 0 →
      GetModuleBase b s = 0) ∧
    (b.NO_CRT = true →
      (VirtualQuery b b.addr_GetModuleBase MEMORY_BASIC_INFORMATION.zero sizeof_mbi).1 = 0 ∧
      (s.g_hModule = 0 → GetModuleBase b s = 0)) ∧
    (b.NO_CRT = false →
      VirtualQuery b b.addr_GetModuleBase MEMORY_BASIC_INFORMATION.zero sizeof_mbi
        = b.os_VirtualQuery b.addr_GetModuleBase MEMORY_BASIC_INFORMATION.zero sizeof_mbi) := by
  refine ⟨fun h => ?_, fun h hq => ?_, fun h hq => ?_, fun hb => ⟨?_, fun h => ?_⟩, fun hb => ?_⟩
  · simp [GetModuleBase, h]
  · simp [GetModuleBase, h, hq]
  · simp [GetModuleBase, h, hq]
  · simp [VirtualQuery, hb]
  · simp [GetModuleBase, h, VirtualQuery, hb]
  · simp [VirtualQuery, hb]

/-- C10 at concrete inputs: the cached identity, the self-resolved base of an image loaded
at `0x1000`, and null under `NO_CRT`. -/
theorem C10_GetModuleBase_result_witness :
    GetModuleBase nocrtBuild attachedExample = 0x1000 ∧
    GetModuleBase (crtBuild 0x1000) State.zero = 0x1000 ∧
    GetModuleBase nocrtBuild State.zero = 0 :=
  ⟨(C10_GetModuleBase_result nocrtBuild attachedExample).1 (by decide),
   (C10_GetModuleBase_result (crtBuild 0x1000) State.zero).2.1 rfl (by decide),
   ((C10_GetModuleBase_result nocrtBuild State.zero).2.2.2.1 rfl).2 rfl⟩

/-! ## C8 — the cached identity over a run -/

theorem invoke_cases (b : Build) (u : UserCode) (fuel : Nat) (c : Call) (s : State) :
    c.forwardsProcessAttach = true ∨
    (∃ h r p, r ≠ DLL_PROCESS_ATTACH ∧
      invoke b u fuel c s = (DllMain b u fuel h r p s).map (fun x => (Ret.BOOL x.1, x.2))) ∨
    (∃ ret, invoke b u fuel c s = some (ret, s)) ∨
    (∃ h r p, invoke b u fuel c s = (TlsCallback u h r p s).map (fun x => (Ret.void, x))) := by
  cases hfw : c.forwardsProcessAttach with
  | true => exact Or.inl rfl
  | false =>
    right
    cases c with
    | DllMain h r p =>
      exact Or.inl ⟨h, r, p,
        by simpa [Call.forwardsProcessAttach, Call.isProcessAttach] using hfw, rfl⟩
    | DllEntry h r p =>
      exact Or.inl ⟨h, r, p,
        by simpa [Call.forwardsProcessAttach, Call.isProcessAttach] using hfw, rfl⟩
    | _DllMainCRTStartup h r p =>
      exact Or.inl ⟨h, r, p,
        by simpa [Call.forwardsProcessAttach, Call.isProcessAttach] using hfw, rfl⟩
    | ReflectiveLoader p => simp [Call.forwardsProcessAttach, Call.isProcessAttach] at hfw
    | KernelApcCallback c1 a1 a2 =>
      exact Or.inr (Or.inl ⟨_, invoke_not_forwarded b u fuel _ s rfl hfw⟩)
    | ThreadHijackEntry p => simp [Call.forwardsProcessAttach, Call.isProcessAttach] at hfw
    | LdrLoadDllEntry p f n m =>
      exact Or.inr (Or.inl ⟨_, invoke_not_forwarded b u fuel _ s rfl hfw⟩)
    | TlsCallback h r p => exact Or.inr (Or.inr ⟨h, r, p, rfl⟩)

theorem callCleanupLibrary_passive (u : UserCode) (hu : u.HandlersPassive)
    (h : HINSTANCE) (r : DWORD) (s : State) :
    ∃ s1, callCleanupLibrary u h r s = some s1 ∧
      s1.trace = s.trace ++ [Event.CleanupLibrary h r] ∧ InitStateEq s s1 := by
  obtain ⟨s0, h0, ⟨f1, f2, f3, f4, _, f6⟩, fm⟩ := hu.1 h r s
  exact ⟨{ s0 with trace := s0.trace ++ [Event.CleanupLibrary h r] },
    by simp only [callCleanupLibrary, h0], by simp [f6], fm, f1, f3, f4, f2⟩

theorem DeleteCriticalSection_vars (b : Build) (s : State) :
    (DeleteCriticalSection b s).g_hModule = s.g_hModule ∧
      (DeleteCriticalSection b s).lockInit = s.lockInit := by
  cases hb : b.NO_CRT <;> cases hn : s.nocrt_initialized <;>
    simp [DeleteCriticalSection, hb, nocrt_Initialize, hn]

/-- What a notification other than process-attach can do to the Initialization State:
nothing, or (process-detach) clear both flags. -/
theorem DllMain_other_some (b : Build) (u : UserCode) (hu : u.HandlersPassive) (fuel : Nat)
    (h : HINSTANCE) (r : DWORD) (p : LPVOID) (hr : r ≠ DLL_PROCESS_ATTACH) (s : State)
    (ret : BOOL) (s1 : State) (hD : DllMain b u fuel h r p s = some (ret, s1)) :
    s1.g_hModule = s.g_hModule ∧ s1.lockInit = s.lockInit ∧
      ((s1.g_bInitialized = s.g_bInitialized ∧ s1.g_bLockInitialized = s.g_bLockInitialized) ∨
       (s1.g_bInitialized = false ∧ s1.g_bLockInitialized = false)) := by
  unfold DllMain at hD
  rw [if_neg hr] at hD
  cases hi : s.g_bInitialized with
  | false =>
    have hs : s1 = s := by
      simp only [hi, Bool.false_eq_true, if_false, ite_self, Option.some.injEq,
        Prod.mk.injEq] at hD
      exact hD.2.symm
    subst hs
    exact ⟨rfl, rfl, Or.inl ⟨by assumption, rfl⟩⟩
  | true =>
    simp only [hi, if_true] at hD
    by_cases hr0 : r = DLL_PROCESS_DETACH
    · rw [if_pos hr0] at hD
      obtain ⟨sc, hc, _, hmc, _, hrc, hkc, _⟩ := callCleanupLibrary_passive u hu h r s
      rw [hc] at hD
      simp only [Option.some.injEq, Prod.mk.injEq] at hD
      obtain ⟨_, hs1⟩ := hD
      subst hs1
      cases hl : sc.g_bLockInitialized with
      | true =>
        obtain ⟨hdm, hdk⟩ := DeleteCriticalSection_vars b sc
        refine ⟨?_, ?_, Or.inr ⟨rfl, ?_⟩⟩
        · simp [hdm, hmc]
        · simp [hdk, hkc]
        · simp
      | false =>
        refine ⟨?_, ?_, Or.inr ⟨rfl, ?_⟩⟩
        · simp [hmc]
        · simp [hkc]
        · simp [hl]
    · rw [if_neg hr0] at hD
      by_cases hr2 : r = DLL_THREAD_ATTACH
      · rw [if_pos hr2] at hD
        obtain ⟨sa, ha, _, hma, hia, hra, hka, _⟩ := callThreadAttachHandler_passive u hu h s
        rw [ha] at hD
        simp only [Option.some.injEq, Prod.mk.injEq] at hD
        obtain ⟨_, hs1⟩ := hD
        subst hs1
        exact ⟨hma, hka, Or.inl ⟨hia.trans hi, hra⟩⟩
      · rw [if_neg hr2] at hD
        by_cases hr3 : r = DLL_THREAD_DETACH
        · rw [if_pos hr3] at hD
          obtain ⟨sa, ha, _, hma, hia, hra, hka, _⟩ := callThreadDetachHandler_passive u hu h s
          rw [ha] at hD
          simp only [Option.some.injEq, Prod.mk.injEq] at hD
          obtain ⟨_, hs1⟩ := hD
          subst hs1
          exact ⟨hma, hka, Or.inl ⟨hia.trans hi, hra⟩⟩
        · rw [if_neg hr3] at hD
          simp only [Option.some.injEq, Prod.mk.injEq] at hD
          obtain ⟨_, hs1⟩ := hD
          subst hs1
          exact ⟨rfl, rfl, Or.inl ⟨by assumption, rfl⟩⟩

theorem TlsCallback_some (u : UserCode) (hu : u.HandlersPassive) (h : PVOID) (r : DWORD)
    (p : PVOID) (s s1 : State) (hT : TlsCallback u h r p s = some s1) : InitStateEq s s1 := by
  have hrefl : InitStateEq s s := ⟨rfl, rfl, rfl, rfl, rfl⟩
  unfold TlsCallback at hT
  cases hi : s.g_bInitialized with
  | false =>
    have hs : s1 = s := by
      simp only [hi, Bool.false_eq_true, if_false, ite_self, Option.some.injEq] at hT
      exact hT.symm
    subst hs
    exact hrefl
  | true =>
    simp only [hi, if_true] at hT
    obtain ⟨sa, ha, _, hea⟩ := callThreadAttachHandler_passive u hu h s
    obtain ⟨sd, hd, _, hed⟩ := callThreadDetachHandler_passive u hu h s
    rw [ha, hd] at hT
    split at hT
    · rw [← Option.some.inj hT]; exact hrefl
    · split at hT
      · rw [← Option.some.inj hT]; exact hea
      · split at hT
        · rw [← Option.some.inj hT]; exact hed
        · simp only [ite_self, Option.some.injEq] at hT
          rw [← hT]; exact hrefl

theorem invoke_step (b : Build) (u : UserCode) (hi : u.InitPassive) (hh : u.HandlersPassive)
    (fuel : Nat) (c : Call) (s : State) (ret : Ret) (s1 : State)
    (h : invoke b u fuel c s = some (ret, s1)) :
    (LatchInv s → LatchInv s1) ∧
      (Established s → Established s1 ∧ s1.g_hModule = s.g_hModule) := by
  rcases invoke_cases b u fuel c s with hfw | ⟨h0, r, p, hr, heq⟩ | ⟨ret0, heq⟩ | ⟨h0, r, p, heq⟩
  · rw [invoke_forward b u fuel c s hfw] at h
    cases hE : EnsureInitialized b u fuel (c.identity b) DLL_PROCESS_ATTACH s with
    | none => simp [hE] at h
    | some x =>
      obtain ⟨res, sx⟩ := x
      simp only [hE, Option.map_some', Option.some.injEq, Prod.mk.injEq] at h
      obtain ⟨_, hs⟩ := h
      subst hs
      obtain ⟨hi1, hr1, hk1, hinit, _⟩ :=
        EnsureInitialized_some b u hi fuel (c.identity b) DLL_PROCESS_ATTACH s res sx hE
      constructor
      · intro hL _
        rw [hk1]
        rcases Bool.eq_false_or_eq_true s.g_bLockInitialized with hl | hl
        · rw [if_pos hl]; exact hL (Or.inr hl)
        · simp [hl]
      · intro hEst
        obtain ⟨hk, hor⟩ := hEst
        rcases Bool.eq_false_or_eq_true s.g_bLockInitialized with hl | hl
        · have hin : s.g_bInitialized = true := by
            rcases hor with hor | hor
            · exact hor
            · rw [hl] at hor; exact absurd hor (by simp)
          obtain ⟨hres, hm, _⟩ := hinit hin
          refine ⟨⟨?_, Or.inl (by rw [hi1, hres])⟩, hm⟩
          rw [hk1, if_pos hl, hk]
        · have hnone := EnsureInitialized_after_delete b u fuel (c.identity b)
            DLL_PROCESS_ATTACH s hl (by rw [hk]; decide)
          rw [hnone] at hE
          exact absurd hE (by simp)
  · rw [heq] at h
    cases hD : DllMain b u fuel h0 r p s with
    | none => simp [hD] at h
    | some x =>
      obtain ⟨res, sx⟩ := x
      simp only [hD, Option.map_some', Option.some.injEq, Prod.mk.injEq] at h
      obtain ⟨_, hs⟩ := h
      subst hs
      obtain ⟨hm, hk, hfl⟩ := DllMain_other_some b u hh fuel h0 r p hr s res sx hD
      constructor
      · intro hL hor
        rw [hk]
        rcases hfl with ⟨hfi, hfr⟩ | ⟨hfi, hfr⟩
        · rw [hfi, hfr] at hor; exact hL hor
        · rw [hfi, hfr] at hor; simp at hor
      · intro hEst
        obtain ⟨hk0, hor⟩ := hEst
        refine ⟨⟨by rw [hk, hk0], ?_⟩, hm⟩
        rcases hfl with ⟨hfi, hfr⟩ | ⟨_, hfr⟩
        · rw [hfi, hfr]; exact hor
        · exact Or.inr hfr
  · rw [heq] at h
    simp only [Option.some.injEq, Prod.mk.injEq] at h
    obtain ⟨_, hs⟩ := h
    subst hs
    exact ⟨fun hL => hL, fun hEst => ⟨hEst, rfl⟩⟩
  · rw [heq] at h
    cases hT : TlsCallback u h0 r p s with
    | none => simp [hT] at h
    | some sx =>
      simp only [hT, Option.map_some', Option.some.injEq, Prod.mk.injEq] at h
      obtain ⟨_, hs⟩ := h
      subst hs
      obtain ⟨hm, hfi, hfr, hk, _⟩ := TlsCallback_some u hh h0 r p s sx hT
      constructor
      · intro hL hor
        rw [hk]; rw [hfi, hfr] at hor; exact hL hor
      · intro hEst
        obtain ⟨hk0, hor⟩ := hEst
        exact ⟨⟨by rw [hk, hk0], by rw [hfi, hfr]; exact hor⟩, hm⟩

theorem run_step (b : Build) (u : UserCode) (hi : u.InitPassive) (hh : u.HandlersPassive)
    (fuel : Nat) (calls : List Call) (s : State) (rets : List Ret) (s1 : State)
    (h : run b u fuel calls s = some (rets, s1)) :
    (LatchInv s → LatchInv s1) ∧
      (Established s → Established s1 ∧ s1.g_hModule = s.g_hModule) := by
  induction calls generalizing s rets with
  | nil =>
    simp only [run, Option.some.injEq, Prod.mk.injEq] at h
    obtain ⟨_, hs⟩ := h
    subst hs
    exact ⟨fun hL => hL, fun hEst => ⟨hEst, rfl⟩⟩
  | cons c cs ih =>
    unfold run at h
    cases h1 : invoke b u fuel c s with
    | none => simp [h1] at h
    | some x =>
      obtain ⟨r, sa⟩ := x
      simp only [h1] at h
      cases h2 : run b u fuel cs sa with
      | none => simp [h2] at h
      | some y =>
        obtain ⟨rs, sb⟩ := y
        simp only [h2, Option.some.injEq, Prod.mk.injEq] at h
        obtain ⟨_, hs⟩ := h
        subst hs
        obtain ⟨hL1, hE1⟩ := invoke_step b u hi hh fuel c s r sa h1
        obtain ⟨hL2, hE2⟩ := ih sa rs h2
        refine ⟨fun hL => hL2 (hL1 hL), fun hEst => ?_⟩
        obtain ⟨ha, hma⟩ := hE1 hEst
        obtain ⟨hb, hmb⟩ := hE2 ha
        exact ⟨hb, by rw [hmb, hma]⟩

/-- C8, as stated, fails: with user code whose first initialization fails,
`DllMain(0x1000, DLL_PROCESS_ATTACH, NULL)` leaves the cached identity at the non-null
value `0x1000`, and a following `DllMain(0x2000, DLL_PROCESS_ATTACH, NULL)` changes it
to `0x2000`. -/
theorem C8_identity_overwritten_by_retry :
    (run nocrtBuild retryCode 1 [Call.DllMain 0x1000 DLL_PROCESS_ATTACH 0] State.zero).map
        (fun x => (x.1, x.2.g_hModule)) = some ([Ret.BOOL false], 0x1000) ∧
    (run nocrtBuild retryCode 1 [Call.DllMain 0x1000 DLL_PROCESS_ATTACH 0,
        Call.DllMain 0x2000 DLL_PROCESS_ATTACH 0] State.zero).map
        (fun x => (x.1, x.2.g_hModule)) = some ([Ret.BOOL false, Ret.BOOL true], 0x2000) := by
  decide

/-- C8, amended: the cached identity is fixed once initialization has succeeded.  For
user code that returns and does not write the gate (and whose cleanup and thread handlers
do not write `g_hModule`), for every sequence of calls from the zero state (any entry, any
reason, any identity, and `TlsCallback`) after which `g_bInitialized` is true, and every
later sequence of calls that returns, `g_hModule` after the later calls is what it
was when `g_bInitialized` was seen true. -/
theorem C8_identity_fixed_once_initialized (b : Build) (u : UserCode) (hi : u.InitPassive)
    (hh : u.HandlersPassive) (fuel : Nat) (pre post : List Call) (rets1 rets2 : List Ret)
    (s1 s2 : State) (hpre : run b u fuel pre State.zero = some (rets1, s1))
    (hinit : s1.g_bInitialized = true) (hpost : run b u fuel post s1 = some (rets2, s2)) :
    s2.g_hModule = s1.g_hModule := by
  have hL0 : LatchInv State.zero := by
    intro hor
    rcases hor with hor | hor <;> simp [State.zero] at hor
  have hL1 : LatchInv s1 := (run_step b u hi hh fuel pre State.zero rets1 s1 hpre).1 hL0
  have hE1 : Established s1 := ⟨hL1 (Or.inl hinit), Or.inl hinit⟩
  exact ((run_step b u hi hh fuel post s1 rets2 s2 hpost).2 hE1).2

theorem retryCode_handlers_passive : retryCode.HandlersPassive :=
  ⟨fun _ _ s => ⟨s, rfl, ⟨rfl, rfl, rfl, rfl, rfl, rfl⟩, rfl⟩,
   fun _ s => ⟨s, rfl, ⟨rfl, rfl, rfl, rfl, rfl, rfl⟩, rfl⟩,
   fun _ s => ⟨s, rfl, ⟨rfl, rfl, rfl, rfl, rfl, rfl⟩, rfl⟩⟩

/-- C8 at a concrete input: after a failed and a successful attach (identity `0x2000`),
an attach with identity `0x3000`, two thread notifications and a process-detach with
other identities leave `g_hModule` at `0x2000`. -/
theorem C8_identity_fixed_once_initialized_witness :
    run nocrtBuild retryCode 1 [Call.DllMain 0x1000 DLL_PROCESS_ATTACH 0,
        Call.DllMain 0x2000 DLL_PROCESS_ATTACH 0] State.zero
      = some ([Ret.BOOL false, Ret.BOOL true], retriedExample) ∧
    retriedExample.g_bInitialized = true ∧
    run nocrtBuild retryCode 1 [Call.ReflectiveLoader 0x3000,
        Call.DllEntry 0x4000 DLL_THREAD_ATTACH 0, Call.TlsCallback 0x5000 DLL_THREAD_DETACH 0,
        Call.DllMain 0x6000 DLL_PROCESS_DETACH 0] retriedExample
      = some ([Ret.DWORD 0x3000, Ret.BOOL true, Ret.void, Ret.BOOL true], detachedExample) ∧
    detachedExample.g_hModule = retriedExample.g_hModule :=
  ⟨by decide, rfl, by decide,
    C8_identity_fixed_once_initialized nocrtBuild retryCode retryCode_passive
      retryCode_handlers_passive 1
      [Call.DllMain 0x1000 DLL_PROCESS_ATTACH 0, Call.DllMain 0x2000 DLL_PROCESS_ATTACH 0]
      [Call.ReflectiveLoader 0x3000, Call.DllEntry 0x4000 DLL_THREAD_ATTACH 0,
        Call.TlsCallback 0x5000 DLL_THREAD_DETACH 0, Call.DllMain 0x6000 DLL_PROCESS_DETACH 0]
      [Ret.BOOL false, Ret.BOOL true]
      [Ret.DWORD 0x3000, Ret.BOOL true, Ret.void, Ret.BOOL true]
      retriedExample detachedExample (by decide) rfl (by decide)⟩

/-! ## C11 — identity convergence -/

theorem GetModuleBase_resolved (b : Build) (B : PVOID)
    (hq : QueryResolves b b.addr_GetModuleBase B) (s : State)
    (hm : s.g_hModule = 0 ∨ s.g_hModule = B) : GetModuleBase b s = B := by
  by_cases h0 : s.g_hModule = 0
  · simp [GetModuleBase, h0, hq.1, hq.2]
  · rcases hm with hm | hm
    · exact absurd hm h0
    · unfold GetModuleBase
      rw [if_pos h0, hm]

theorem resolveIdentity_null (b : Build) (a : LPCVOID) (B : PVOID) (hq : QueryResolves b a B) :
    resolveIdentity b a 0 = B := by
  simp [resolveIdentity, hq.1, hq.2]

theorem identity_of_null (b : Build) (B : PVOID)
    (hR : QueryResolves b b.addr_ReflectiveLoader B)
    (hT : QueryResolves b b.addr_ThreadHijackEntry B) (c : Call)
    (hnull : c.suppliedIdentity = 0) : c.identity b = 0 ∨ c.identity b = B := by
  cases c with
  | DllMain h r p => exact Or.inl hnull
  | DllEntry h r p => exact Or.inl hnull
  | _DllMainCRTStartup h r p => exact Or.inl hnull
  | ReflectiveLoader p =>
    have hp : p = 0 := hnull
    subst hp
    exact Or.inr (resolveIdentity_null b _ B hR)
  | KernelApcCallback c1 a1 a2 => exact Or.inl hnull
  | ThreadHijackEntry p =>
    have hp : p = 0 := hnull
    subst hp
    exact Or.inr (resolveIdentity_null b _ B hT)
  | LdrLoadDllEntry p f n m => exact Or.inl hnull
  | TlsCallback h r p => exact Or.inl hnull

/-- C11: assume the memory query reports the same allocation base `B` for the addresses
of `ReflectiveLoader`, `ThreadHijackEntry` and `GetModuleBase`, and an `InitializeLibrary`
that returns, leaves the gate alone and does not move the cached identity.  Then every
process-attach request made on the zero state with a null identity, through whichever
entry, returns, and `GetModuleBase()` called next returns `B`, in particular when the
attach has succeeded. -/
theorem C11_identity_convergence (b : Build) (u : UserCode) (hu : u.InitPassive)
    (hk : u.InitKeepsIdentity) (B : PVOID)
    (hR : QueryResolves b b.addr_ReflectiveLoader B)
    (hT : QueryResolves b b.addr_ThreadHijackEntry B)
    (hG : QueryResolves b b.addr_GetModuleBase B) (fuel : Nat) (hfuel : 0 < fuel) (c : Call)
    (hc : c.isProcessAttach = true) (hnull : c.suppliedIdentity = 0) :
    ∃ ret s1, invoke b u fuel c State.zero = some (ret, s1) ∧ GetModuleBase b s1 = B ∧
      (s1.g_bInitialized = true → GetModuleBase b s1 = B) := by
  obtain ⟨n, rfl⟩ : ∃ n, fuel = n + 1 := ⟨fuel - 1, by omega⟩
  cases hfw : c.forwardsProcessAttach with
  | false =>
    have hB : GetModuleBase b State.zero = B := GetModuleBase_resolved b B hG State.zero (Or.inl rfl)
    exact ⟨_, State.zero, invoke_not_forwarded b u (n + 1) c State.zero hc hfw, hB, fun _ => hB⟩
  | true =>
    obtain ⟨res, sin, sout, s1, hsin, hcb, h1, _, _, _, hm1, _⟩ :=
      EnsureInitialized_uninitialized b u hu n State.zero (Or.inr ⟨rfl, rfl⟩) rfl (c.identity b)
        DLL_PROCESS_ATTACH
    have hm : s1.g_hModule = c.identity b := by
      rw [hm1]
      exact hk (c.identity b) DLL_PROCESS_ATTACH sin res sout hcb hsin
    have hB : GetModuleBase b s1 = B :=
      GetModuleBase_resolved b B hG s1 (by rw [hm]; exact identity_of_null b B hR hT c hnull)
    refine ⟨if res then c.successValue b else c.failureValue, s1, ?_, hB, fun _ => hB⟩
    rw [invoke_forward b u (n + 1) c State.zero hfw, h1]
    rfl

theorem templateCode_keeps_identity : templateCode.InitKeepsIdentity := by
  intro h r s res s1 hcb _
  simp only [templateCode, Option.some.injEq, Prod.mk.injEq] at hcb
  rw [← hcb.2]

/-- C11 at concrete inputs: in an image loaded at `0x1000`, `ThreadHijackEntry(NULL)` and
`DllMain(NULL, DLL_PROCESS_ATTACH, NULL)` are each followed by `GetModuleBase() = 0x1000`. -/
theorem C11_identity_convergence_witness :
    (∃ ret s1, invoke (crtBuild 0x1000) templateCode 1 (Call.ThreadHijackEntry 0) State.zero
        = some (ret, s1) ∧ GetModuleBase (crtBuild 0x1000) s1 = 0x1000 ∧
      (s1.g_bInitialized = true → GetModuleBase (crtBuild 0x1000) s1 = 0x1000)) ∧
    (∃ ret s1, invoke (crtBuild 0x1000) templateCode 1
        (Call.DllMain 0 DLL_PROCESS_ATTACH 0) State.zero = some (ret, s1) ∧
      GetModuleBase (crtBuild 0x1000) s1 = 0x1000 ∧
      (s1.g_bInitialized = true → GetModuleBase (crtBuild 0x1000) s1 = 0x1000)) :=
  ⟨C11_identity_convergence (crtBuild 0x1000) templateCode
      (InitReportsSuccess_passive templateCode_reports_success) templateCode_keeps_identity
      0x1000 ⟨by decide, by decide⟩ ⟨by decide, by decide⟩ ⟨by decide, by decide⟩ 1 (by decide) (Call.ThreadHijackEntry 0)
      rfl rfl,
   C11_identity_convergence (crtBuild 0x1000) templateCode
      (InitReportsSuccess_passive templateCode_reports_success) templateCode_keeps_identity
      0x1000 ⟨by decide, by decide⟩ ⟨by decide, by decide⟩ ⟨by decide, by decide⟩ 1 (by decide)
      (Call.DllMain 0 DLL_PROCESS_ATTACH 0) rfl rfl⟩

/-! ## C12 — what each entry does with a missing identity -/

theorem attach_from_zero (b : Build) (u : UserCode) (hu : u.InitPassive) (n : Nat)
    (h : HINSTANCE) :
    ∃ res s1, EnsureInitialized b u (n + 1) h DLL_PROCESS_ATTACH State.zero = some (res, s1) ∧
      initEvents s1.trace = [Event.InitializeLibrary h DLL_PROCESS_ATTACH res] ∧
      s1.g_bInitialized = res := by
  obtain ⟨res, _, _, s1, _, _, h1, hi1, _, _, _, _, ht1, _⟩ :=
    EnsureInitialized_uninitialized b u hu n State.zero (Or.inr ⟨rfl, rfl⟩) rfl h
      DLL_PROCESS_ATTACH
  refine ⟨res, s1, h1, ?_, hi1⟩
  rw [ht1, initEvents_append, initEvents_append, initEvents_lockEvents]
  simp [initEvents, Event.isInitializeLibrary, State.zero]

/-- C12, as stated, fails for five of the seven entries.  In an image loaded at `0x1000`,
where the memory query succeeds for the address of every function, `DllMain` and
`DllEntry` called with a null identity pass null on to `InitializeLibrary` (no query is
made), and `KernelApcCallback` and `LdrLoadDllEntry` called with a null identity return
with the zero state untouched: no process-attach is performed. -/
theorem C12_null_identity_not_resolved :
    QueryResolves (crtBuild 0x1000) (crtBuild 0x1000).addr_GetModuleBase 0x1000 ∧
    (run (crtBuild 0x1000) templateCode 1 [Call.DllMain 0 DLL_PROCESS_ATTACH 0] State.zero).map
        (fun x => (x.2.trace, x.2.g_hModule))
      = some ([Event.InitializeCriticalSection,
               Event.InitializeLibrary 0 DLL_PROCESS_ATTACH true], 0) ∧
    (run (crtBuild 0x1000) templateCode 1 [Call.DllEntry 0 DLL_PROCESS_ATTACH 0] State.zero).map
        (fun x => (x.2.trace, x.2.g_hModule))
      = some ([Event.InitializeCriticalSection,
               Event.InitializeLibrary 0 DLL_PROCESS_ATTACH true], 0) ∧
    run (crtBuild 0x1000) templateCode 1 [Call.KernelApcCallback 0 0 0] State.zero
      = some ([Ret.void], State.zero) ∧
    run (crtBuild 0x1000) templateCode 1 [Call.LdrLoadDllEntry 0 0 0 none] State.zero
      = some ([Ret.NTSTATUS 0], State.zero) := by
  refine ⟨⟨by decide, by decide⟩, by decide, by decide, by decide, by decide⟩

/-- C12, amended: on the zero state, with an `InitializeLibrary` that returns and leaves
the gate alone, and a null identity supplied:
`ReflectiveLoader` and `ThreadHijackEntry` query the memory manager about their own
address and perform the process-attach with the allocation base when the query succeeds
and with null when it fails (the identity `InitializeLibrary` receives);
`DllMain`, `DllEntry` and `_DllMainCRTStartup` perform the process-attach with the
null identity, without a query;
`KernelApcCallback` and `LdrLoadDllEntry` return without a process-attach and leave the
state as it is. -/
theorem C12_missing_identity_by_entry (b : Build) (u : UserCode) (hu : u.InitPassive)
    (fuel : Nat) (hfuel : 0 < fuel) :
    (∃ res r s1, ReflectiveLoader b u fuel 0 State.zero = some (r, s1) ∧
      initEvents s1.trace = [Event.InitializeLibrary
        (if (VirtualQuery b b.addr_ReflectiveLoader MEMORY_BASIC_INFORMATION.zero sizeof_mbi).1 ≠ 0
         then (VirtualQuery b b.addr_ReflectiveLoader MEMORY_BASIC_INFORMATION.zero
           sizeof_mbi).2.AllocationBase
         else 0) DLL_PROCESS_ATTACH res]) ∧
    (∃ res r s1, ThreadHijackEntry b u fuel 0 State.zero = some (r, s1) ∧
      initEvents s1.trace = [Event.InitializeLibrary
        (if (VirtualQuery b b.addr_ThreadHijackEntry MEMORY_BASIC_INFORMATION.zero sizeof_mbi).1 ≠ 0
         then (VirtualQuery b b.addr_ThreadHijackEntry MEMORY_BASIC_INFORMATION.zero
           sizeof_mbi).2.AllocationBase
         else 0) DLL_PROCESS_ATTACH res]) ∧
    (∀ p, ∃ res s1, DllMain b u fuel 0 DLL_PROCESS_ATTACH p State.zero = some (res, s1) ∧
      DllEntry b u fuel 0 DLL_PROCESS_ATTACH p State.zero = some (res, s1) ∧
      _DllMainCRTStartup b u fuel 0 DLL_PROCESS_ATTACH p State.zero = some (res, s1) ∧
      initEvents s1.trace = [Event.InitializeLibrary 0 DLL_PROCESS_ATTACH res]) ∧
    (∀ a1 a2, KernelApcCallback b u fuel 0 a1 a2 State.zero = some State.zero) ∧
    (∀ p f n, LdrLoadDllEntry b u fuel p f n none State.zero = some (0, State.zero) ∧
      LdrLoadDllEntry b u fuel p f n (some 0) State.zero = some (0, State.zero)) := by
  obtain ⟨n, rfl⟩ : ∃ n, fuel = n + 1 := ⟨fuel - 1, by omega⟩
  refine ⟨?_, ?_, fun p => ?_, fun a1 a2 => ?_, fun p f n => ⟨?_, ?_⟩⟩
  · obtain ⟨res, s1, h1, ht1, _⟩ :=
      attach_from_zero b u hu n (resolveIdentity b b.addr_ReflectiveLoader 0)
    have hid : resolveIdentity b b.addr_ReflectiveLoader 0 =
        (if (VirtualQuery b b.addr_ReflectiveLoader MEMORY_BASIC_INFORMATION.zero
            sizeof_mbi).1 ≠ 0
         then (VirtualQuery b b.addr_ReflectiveLoader MEMORY_BASIC_INFORMATION.zero
           sizeof_mbi).2.AllocationBase
         else 0) := by simp [resolveIdentity]
    rw [hid] at ht1
    cases res with
    | true =>
      exact ⟨true, resolveIdentity b b.addr_ReflectiveLoader 0 % 2 ^ 32, s1,
        by simp [ReflectiveLoader, DllMain_attach_eq, h1], ht1⟩
    | false => exact ⟨false, 0, s1, by simp [ReflectiveLoader, DllMain_attach_eq, h1], ht1⟩
  · obtain ⟨res, s1, h1, ht1, _⟩ :=
      attach_from_zero b u hu n (resolveIdentity b b.addr_ThreadHijackEntry 0)
    have hid : resolveIdentity b b.addr_ThreadHijackEntry 0 =
        (if (VirtualQuery b b.addr_ThreadHijackEntry MEMORY_BASIC_INFORMATION.zero
            sizeof_mbi).1 ≠ 0
         then (VirtualQuery b b.addr_ThreadHijackEntry MEMORY_BASIC_INFORMATION.zero
           sizeof_mbi).2.AllocationBase
         else 0) := by simp [resolveIdentity]
    rw [hid] at ht1
    exact ⟨res, if res then 1 else 0, s1,
      by simp [ThreadHijackEntry, DllMain_attach_eq, h1], ht1⟩
  · obtain ⟨res, s1, h1, ht1, _⟩ := attach_from_zero b u hu n 0
    exact ⟨res, s1, by rw [DllMain_attach_eq, h1], by rw [DllEntry, DllMain_attach_eq, h1],
      by rw [_DllMainCRTStartup, DllMain_attach_eq, h1], ht1⟩
  · simp [KernelApcCallback]
  · simp [LdrLoadDllEntry]
  · simp [LdrLoadDllEntry]

/-- C12 at concrete inputs: `ReflectiveLoader(NULL)` in an image loaded at `0x1000`
attaches with identity `0x1000`; in a `NO_CRT` build, where the query fails, with null. -/
theorem C12_missing_identity_by_entry_witness :
    (∃ res r s1, ReflectiveLoader (crtBuild 0x1000) templateCode 1 0 State.zero = some (r, s1) ∧
      initEvents s1.trace = [Event.InitializeLibrary 0x1000 DLL_PROCESS_ATTACH res]) ∧
    (∃ res r s1, ReflectiveLoader nocrtBuild templateCode 1 0 State.zero = some (r, s1) ∧
      initEvents s1.trace = [Event.InitializeLibrary 0 DLL_PROCESS_ATTACH res]) :=
  ⟨(C12_missing_identity_by_entry (crtBuild 0x1000) templateCode
      (InitReportsSuccess_passive templateCode_reports_success) 1 (by decide)).1,
   (C12_missing_identity_by_entry nocrtBuild templateCode
      (InitReportsSuccess_passive templateCode_reports_success) 1 (by decide)).1⟩

/-! ## C13 — process-detach -/

theorem DeleteCriticalSection_trace (b : Build) (s : State) :
    (DeleteCriticalSection b s).trace = s.trace ++ [Event.DeleteCriticalSection] := by
  cases hb : b.NO_CRT <;> cases hn : s.nocrt_initialized <;>
    simp [DeleteCriticalSection, hb, nocrt_Initialize, hn]

/-- C13: for a `CleanupLibrary` that returns and leaves the gate and the cached identity
alone, in every state `DllMain(h, DLL_PROCESS_DETACH, p)` returns `TRUE`.  When
`g_bInitialized` is true the trace gains exactly one invocation of `CleanupLibrary` with
the identity supplied (followed by the destruction of the lock when it was constructed),
`g_bInitialized` and `g_bLockInitialized` are false afterwards and `g_hModule` is
unchanged.  When `g_bInitialized` is false the state is left as it is: no callback, and
the lock, if constructed, is not destroyed. -/
theorem C13_process_detach (b : Build) (u : UserCode) (hu : u.HandlersPassive) (fuel : Nat)
    (h : HINSTANCE) (p : LPVOID) (s : State) :
    (s.g_bInitialized = true →
      ∃ s1, DllMain b u fuel h DLL_PROCESS_DETACH p s = some (true, s1) ∧
        s1.trace = s.trace ++ [Event.CleanupLibrary h DLL_PROCESS_DETACH] ++
          (if s.g_bLockInitialized then [Event.DeleteCriticalSection] else []) ∧
        s1.g_bInitialized = false ∧ s1.g_bLockInitialized = false ∧
        s1.g_hModule = s.g_hModule ∧ s1.lockInit = s.lockInit) ∧
    (s.g_bInitialized = false → DllMain b u fuel h DLL_PROCESS_DETACH p s = some (true, s)) := by
  constructor
  · intro hi
    obtain ⟨sc, hc, htc, hmc, _, hrc, hkc, _⟩ :=
      callCleanupLibrary_passive u hu h DLL_PROCESS_DETACH s
    obtain ⟨hdm, hdk⟩ := DeleteCriticalSection_vars b sc
    have hdt := DeleteCriticalSection_trace b sc
    have hne : DLL_PROCESS_DETACH ≠ DLL_PROCESS_ATTACH := by decide
    rcases Bool.eq_false_or_eq_true s.g_bLockInitialized with hl | hl
    · refine ⟨{ ({ DeleteCriticalSection b sc with g_bLockInitialized := false } : State) with
          g_bInitialized := false }, ?_, ?_, rfl, rfl, ?_, ?_⟩
      · unfold DllMain
        rw [if_neg hne, if_pos rfl, if_pos hi, hc]
        simp [hrc, hl]
      · simp [hdt, htc, hl]
      · simp [hdm, hmc]
      · simp [hdk, hkc]
    · refine ⟨{ sc with g_bInitialized := false }, ?_, ?_, rfl, ?_, ?_, ?_⟩
      · unfold DllMain
        rw [if_neg hne, if_pos rfl, if_pos hi, hc]
        simp [hrc, hl]
      · simp [htc, hl]
      · simp [hrc, hl]
      · simp [hmc]
      · simp [hkc]
  · intro hi
    simp [DllMain, DLL_PROCESS_ATTACH, DLL_PROCESS_DETACH, hi]

/-- C13 at concrete inputs: a process-detach after a successful attach, and one on the
zero state. -/
theorem C13_process_detach_witness :
    (∃ s1, DllMain nocrtBuild templateCode 1 0x1000 DLL_PROCESS_DETACH 0 attachedExample
        = some (true, s1) ∧
      s1.trace = attachedExample.trace ++ [Event.CleanupLibrary 0x1000 DLL_PROCESS_DETACH] ++
        (if attachedExample.g_bLockInitialized then [Event.DeleteCriticalSection] else []) ∧
      s1.g_bInitialized = false ∧ s1.g_bLockInitialized = false ∧
      s1.g_hModule = attachedExample.g_hModule ∧ s1.lockInit = attachedExample.lockInit) ∧
    DllMain nocrtBuild templateCode 1 0x1000 DLL_PROCESS_DETACH 0 State.zero
      = some (true, State.zero) :=
  ⟨(C13_process_detach nocrtBuild templateCode templateCode_handlers_passive 1 0x1000 0
      attachedExample).1 rfl,
   (C13_process_detach nocrtBuild templateCode templateCode_handlers_passive 1 0x1000 0
      State.zero).2 rfl⟩

/-! ## C14 — the TLS callback -/

/-- C14: in every state and for every reason code `TlsCallback` does not depend on
`InitializeLibrary` or `CleanupLibrary` (replacing them changes nothing), and for
`DLL_PROCESS_ATTACH` and `DLL_PROCESS_DETACH` it returns the state as it is, whatever the
user code.  For thread handlers that return and leave the gate alone it returns, leaves
the Initialization State unchanged, and adds to the trace nothing, or one invocation of
`ThreadAttachHandler`, or one of `ThreadDetachHandler`. -/
theorem C14_TlsCallback_owns_no_initialization (u : UserCode) (h : PVOID) (r : DWORD)
    (p : PVOID) (s : State) :
    (∀ f g, TlsCallback { u with InitializeLibrary := f, CleanupLibrary := g } h r p s
      = TlsCallback u h r p s) ∧
    TlsCallback u h DLL_PROCESS_ATTACH p s = some s ∧
    TlsCallback u h DLL_PROCESS_DETACH p s = some s ∧
    (u.HandlersPassive → ∃ s1, TlsCallback u h r p s = some s1 ∧ InitStateEq s s1 ∧
      (s1.trace = s.trace ∨ s1.trace = s.trace ++ [Event.ThreadAttachHandler h] ∨
        s1.trace = s.trace ++ [Event.ThreadDetachHandler h])) := by
  refine ⟨fun f g => rfl, by simp [TlsCallback], by simp [TlsCallback, DLL_PROCESS_DETACH,
    DLL_PROCESS_ATTACH, DLL_THREAD_ATTACH, DLL_THREAD_DETACH], fun hu => ?_⟩
  have hrefl : InitStateEq s s := ⟨rfl, rfl, rfl, rfl, rfl⟩
  obtain ⟨sa, ha, hta, hea⟩ := callThreadAttachHandler_passive u hu h s
  obtain ⟨sd, hd, htd, hed⟩ := callThreadDetachHandler_passive u hu h s
  unfold TlsCallback
  rw [ha, hd]
  rcases Bool.eq_false_or_eq_true s.g_bInitialized with hi | hi
  · rw [hi]
    simp only [if_true]
    split
    · exact ⟨s, rfl, hrefl, Or.inl rfl⟩
    · split
      · exact ⟨sa, rfl, hea, Or.inr (Or.inl hta)⟩
      · split
        · exact ⟨sd, rfl, hed, Or.inr (Or.inr htd)⟩
        · exact ⟨s, by simp, hrefl, Or.inl rfl⟩
  · rw [hi]
    exact ⟨s, by simp, hrefl, Or.inl rfl⟩

/-- C14 at a concrete input: a thread-detach notification after a successful attach. -/
theorem C14_TlsCallback_owns_no_initialization_witness :
    ∃ s1, TlsCallback templateCode 0x1000 DLL_THREAD_DETACH 0 attachedExample = some s1 ∧
      InitStateEq attachedExample s1 ∧
      (s1.trace = attachedExample.trace ∨
        s1.trace = attachedExample.trace ++ [Event.ThreadAttachHandler 0x1000] ∨
        s1.trace = attachedExample.trace ++ [Event.ThreadDetachHandler 0x1000]) :=
  (C14_TlsCallback_owns_no_initialization templateCode 0x1000 DLL_THREAD_DETACH 0
    attachedExample).2.2.2 templateCode_handlers_passive

/-! ## C17 — the lock-state invariant -/

theorem invoke_lock_state (b : Build) (u : UserCode) (hi : u.InitPassive)
    (hh : u.HandlersPassive) (fuel : Nat) (c : Call) (s : State) (ret : Ret) (s1 : State)
    (h : invoke b u fuel c s = some (ret, s1)) :
    (LockStateInv s → LockStateInv s1) ∧ (s.lockInit = 1 → s1.lockInit = 1) := by
  rcases invoke_cases b u fuel c s with hfw | ⟨h0, r, p, hr, heq⟩ | ⟨ret0, heq⟩ | ⟨h0, r, p, heq⟩
  · rw [invoke_forward b u fuel c s hfw] at h
    cases hE : EnsureInitialized b u fuel (c.identity b) DLL_PROCESS_ATTACH s with
    | none => simp [hE] at h
    | some x =>
      obtain ⟨res, sx⟩ := x
      simp only [hE, Option.map_some', Option.some.injEq, Prod.mk.injEq] at h
      obtain ⟨_, hs⟩ := h
      subst hs
      obtain ⟨_, hr1, hk1, _, _⟩ :=
        EnsureInitialized_some b u hi fuel (c.identity b) DLL_PROCESS_ATTACH s res sx hE
      constructor
      · intro hL
        refine ⟨fun _ => hr1, fun _ => ?_⟩
        rw [hk1]
        rcases Bool.eq_false_or_eq_true s.g_bLockInitialized with hl | hl
        · rw [if_pos hl]; exact hL.2 hl
        · simp [hl]
      · intro hk
        rw [hk1]
        split
        · exact hk
        · rfl
  · rw [heq] at h
    cases hD : DllMain b u fuel h0 r p s with
    | none => simp [hD] at h
    | some x =>
      obtain ⟨res, sx⟩ := x
      simp only [hD, Option.map_some', Option.some.injEq, Prod.mk.injEq] at h
      obtain ⟨_, hs⟩ := h
      subst hs
      obtain ⟨_, hk, hfl⟩ := DllMain_other_some b u hh fuel h0 r p hr s res sx hD
      constructor
      · intro hL
        rcases hfl with ⟨hfi, hfr⟩ | ⟨hfi, hfr⟩
        · exact ⟨fun hx => by rw [hfr]; exact hL.1 (by rw [← hfi]; exact hx),
            fun hx => by rw [hk]; exact hL.2 (by rw [← hfr]; exact hx)⟩
        · exact ⟨fun hx => by rw [hfi] at hx; exact absurd hx (by simp),
            fun hx => by rw [hfr] at hx; exact absurd hx (by simp)⟩
      · intro hk1
        rw [hk, hk1]
  · rw [heq] at h
    simp only [Option.some.injEq, Prod.mk.injEq] at h
    obtain ⟨_, hs⟩ := h
    subst hs
    exact ⟨fun hL => hL, fun hk => hk⟩
  · rw [heq] at h
    cases hT : TlsCallback u h0 r p s with
    | none => simp [hT] at h
    | some sx =>
      simp only [hT, Option.map_some', Option.some.injEq, Prod.mk.injEq] at h
      obtain ⟨_, hs⟩ := h
      subst hs
      obtain ⟨_, hfi, hfr, hk, _⟩ := TlsCallback_some u hh h0 r p s sx hT
      constructor
      · intro hL
        exact ⟨fun hx => by rw [hfr]; exact hL.1 (by rw [← hfi]; exact hx),
          fun hx => by rw [hk]; exact hL.2 (by rw [← hfr]; exact hx)⟩
      · intro hk1
        rw [hk, hk1]

/-- C17: the invariant (`g_bInitialized` implies `g_bLockInitialized`, and
`g_bLockInitialized` implies `lockInit = 1`) holds in the zero state, and for user code
that returns and leaves the gate alone it is preserved by every call that returns: any
entry and `TlsCallback`, any reason code, any identity, any result of `InitializeLibrary`.
No call that returns takes `lockInit` from 1 to another value. -/
theorem C17_lock_state_invariant (b : Build) (u : UserCode) (hi : u.InitPassive)
    (hh : u.HandlersPassive) :
    LockStateInv State.zero ∧
    ∀ (fuel : Nat) (c : Call) (s : State) (ret : Ret) (s1 : State),
      invoke b u fuel c s = some (ret, s1) →
        (LockStateInv s → LockStateInv s1) ∧ (s.lockInit = 1 → s1.lockInit = 1) := by
  refine ⟨⟨fun hx => ?_, fun hx => ?_⟩, fun fuel c s ret s1 h =>
    invoke_lock_state b u hi hh fuel c s ret s1 h⟩
  · simp [State.zero] at hx
  · simp [State.zero] at hx

/-- C17 at concrete inputs: the invariant after a first attach on the zero state and
after a following process-detach, where `lockInit` stays 1. -/
theorem C17_lock_state_invariant_witness :
    LockStateInv State.zero ∧ LockStateInv attachedExample ∧ LockStateInv tornDownExample ∧
      tornDownExample.lockInit = 1 :=
  ⟨(C17_lock_state_invariant nocrtBuild templateCode
      (InitReportsSuccess_passive templateCode_reports_success)
      templateCode_handlers_passive).1,
   ((C17_lock_state_invariant nocrtBuild templateCode
      (InitReportsSuccess_passive templateCode_reports_success)
      templateCode_handlers_passive).2 1 (Call.DllMain 0x1000 DLL_PROCESS_ATTACH 0) State.zero
      (Ret.BOOL true) attachedExample (by decide)).1
    (C17_lock_state_invariant nocrtBuild templateCode
      (InitReportsSuccess_passive templateCode_reports_success)
      templateCode_handlers_passive).1,
   ((C17_lock_state_invariant nocrtBuild templateCode
      (InitReportsSuccess_passive templateCode_reports_success)
      templateCode_handlers_passive).2 1 (Call.DllMain 0x1000 DLL_PROCESS_DETACH 0)
      attachedExample (Ret.BOOL true) tornDownExample (by decide)).1
    ⟨fun _ => rfl, fun _ => rfl⟩,
   ((C17_lock_state_invariant nocrtBuild templateCode
      (InitReportsSuccess_passive templateCode_reports_success)
      templateCode_handlers_passive).2 1 (Call.DllMain 0x1000 DLL_PROCESS_DETACH 0)
      attachedExample (Ret.BOOL true) tornDownExample (by decide)).2 rfl⟩

/-! ## C18 — the value of `ReflectiveLoader` -/

theorem ReflectiveLoader_returns (b : Build) (u : UserCode) (hu : u.InitPassive) (n : Nat)
    (p : LPVOID) (s : State) (hq : Quiescent b s) :
    ∃ res s1, ReflectiveLoader b u (n + 1) p s
        = some (if res then resolveIdentity b b.addr_ReflectiveLoader p % 2 ^ 32 else 0, s1) ∧
      s1.g_bInitialized = res := by
  have hE : ∃ res s1, EnsureInitialized b u (n + 1)
      (resolveIdentity b b.addr_ReflectiveLoader p) DLL_PROCESS_ATTACH s = some (res, s1) ∧
      s1.g_bInitialized = res := by
    rcases Bool.eq_false_or_eq_true s.g_bInitialized with hi | hi
    · obtain ⟨s1, h1, hi1, _⟩ := EnsureInitialized_initialized b u n s hq hi
        (resolveIdentity b b.addr_ReflectiveLoader p) DLL_PROCESS_ATTACH
      exact ⟨true, s1, h1, hi1⟩
    · obtain ⟨res, _, _, s1, _, _, h1, hi1, _⟩ := EnsureInitialized_uninitialized b u hu n s hq
        hi (resolveIdentity b b.addr_ReflectiveLoader p) DLL_PROCESS_ATTACH
      exact ⟨res, s1, h1, hi1⟩
  obtain ⟨res, s1, h1, hi1⟩ := hE
  refine ⟨res, s1, ?_, hi1⟩
  cases res <;> simp [ReflectiveLoader, DllMain_attach_eq, h1]

/-- C18: for an `InitializeLibrary` that returns and leaves the gate alone, in every state
in which the lock can be obtained, `ReflectiveLoader(p)` returns, and when the attach has
succeeded (`g_bInitialized` true afterwards) the value is the identity `h` it attached
with, modulo 2^32: different from `h` whenever `h ≥ 2^32`, and 0, the failure value,
whenever the low 32 bits of `h` are zero. -/
theorem C18_ReflectiveLoader_truncates (b : Build) (u : UserCode) (hu : u.InitPassive)
    (fuel : Nat) (hfuel : 0 < fuel) (p : LPVOID) (s : State) (hq : Quiescent b s) :
    ∃ r s1, ReflectiveLoader b u fuel p s = some (r, s1) ∧
      (s1.g_bInitialized = true →
        r = resolveIdentity b b.addr_ReflectiveLoader p % 2 ^ 32 ∧
        (2 ^ 32 ≤ resolveIdentity b b.addr_ReflectiveLoader p →
          r ≠ resolveIdentity b b.addr_ReflectiveLoader p) ∧
        (resolveIdentity b b.addr_ReflectiveLoader p % 2 ^ 32 = 0 → r = 0)) := by
  obtain ⟨n, rfl⟩ : ∃ n, fuel = n + 1 := ⟨fuel - 1, by omega⟩
  obtain ⟨res, s1, h1, hi1⟩ := ReflectiveLoader_returns b u hu n p s hq
  refine ⟨_, s1, h1, fun hi => ?_⟩
  have hres : res = true := by rw [← hi1, hi]
  subst hres
  rw [if_pos rfl]
  refine ⟨rfl, fun hge habs => ?_, fun h0 => h0⟩
  have hlt : resolveIdentity b b.addr_ReflectiveLoader p % 2 ^ 32 < 2 ^ 32 :=
    Nat.mod_lt _ (by decide)
  rw [habs] at hlt
  exact absurd hge (Nat.not_le.mpr hlt)

/-- C18 at the inputs of the claim: the identity `0x100000000` passed explicitly, and a
null parameter whose self-resolution fails (`NO_CRT`); both attach successfully and hand
back 0. -/
theorem C18_ReflectiveLoader_truncates_witness :
    (∃ r s1, ReflectiveLoader (crtBuild 0x100000000) templateCode 1 0x100000000 State.zero
        = some (r, s1) ∧
      (s1.g_bInitialized = true →
        r = resolveIdentity (crtBuild 0x100000000)
              (crtBuild 0x100000000).addr_ReflectiveLoader 0x100000000 % 2 ^ 32 ∧
        (2 ^ 32 ≤ resolveIdentity (crtBuild 0x100000000)
              (crtBuild 0x100000000).addr_ReflectiveLoader 0x100000000 →
          r ≠ resolveIdentity (crtBuild 0x100000000)
              (crtBuild 0x100000000).addr_ReflectiveLoader 0x100000000) ∧
        (resolveIdentity (crtBuild 0x100000000)
              (crtBuild 0x100000000).addr_ReflectiveLoader 0x100000000 % 2 ^ 32 = 0 → r = 0))) ∧
    (ReflectiveLoader (crtBuild 0x100000000) templateCode 1 0x100000000 State.zero).map
        (fun x => (x.1, x.2.g_bInitialized)) = some (0, true) ∧
    (ReflectiveLoader nocrtBuild templateCode 1 0 State.zero).map
        (fun x => (x.1, x.2.g_bInitialized)) = some (0, true) :=
  ⟨C18_ReflectiveLoader_truncates (crtBuild 0x100000000) templateCode
      (InitReportsSuccess_passive templateCode_reports_success) 1 (by decide) 0x100000000
      State.zero (Or.inr ⟨rfl, rfl⟩),
   by decide, by decide⟩

/-! ## C15 — re-entry on the same thread -/

theorem EnsureInitialized_lock_held (b : Build) (hb : b.NO_CRT = true) (u : UserCode)
    (fuel : Nat) (h : HINSTANCE) (r : DWORD) (s : State) (hr : s.g_bLockInitialized = true)
    (hl : s.g_InitLock.LockCount ≠ 0) : EnsureInitialized b u fuel h r s = none := by
  have h1 : ensureLock b fuel s = some s := by simp [ensureLock, hr]
  have h2 : EnterCriticalSection b fuel s = none := by
    have hsp : nocrt_spin fuel (nocrt_Initialize s).2.g_InitLock = none := by
      apply nocrt_spin_held
      cases hn : s.nocrt_initialized <;> simpa [nocrt_Initialize, hn] using hl
    simp [EnterCriticalSection, hb, hsp]
  simp [EnsureInitialized, h1, h2]

theorem reentrant_nocrt_never_returns (fuel depth : Nat) (h : HINSTANCE) :
    DllMain nocrtBuild (reentrantCode nocrtBuild fuel depth) fuel h DLL_PROCESS_ATTACH 0
      State.zero = none := by
  rw [DllMain_attach_eq]
  cases fuel with
  | zero =>
    simp [EnsureInitialized, ensureLock, State.zero, InterlockedCompareExchange,
      InitializeCriticalSection, nocrtBuild, nocrt_Initialize, EnterCriticalSection, nocrt_spin]
  | succ n =>
    cases depth with
    | zero =>
      simp [EnsureInitialized, ensureLock, State.zero, InterlockedCompareExchange,
        InitializeCriticalSection, nocrtBuild, nocrt_Initialize, EnterCriticalSection,
        nocrt_spin, CRITICAL_SECTION.zero, initOnce, callInitializeLibrary, reentrantCode]
    | succ d =>
      have hheld : ∀ s : State, s.g_bLockInitialized = true → s.g_InitLock.LockCount ≠ 0 →
          DllMain nocrtBuild (reentrantCode nocrtBuild (n + 1) d) (n + 1) h
            DLL_PROCESS_ATTACH 0 s = none := by
        intro s hr hl
        rw [DllMain_attach_eq]
        exact EnsureInitialized_lock_held nocrtBuild rfl _ _ _ _ s hr hl
      simp [EnsureInitialized, ensureLock, State.zero, InterlockedCompareExchange,
        InitializeCriticalSection, nocrt_Initialize, EnterCriticalSection,
        nocrt_spin, CRITICAL_SECTION.zero, initOnce, callInitializeLibrary, reentrantCode,
        hheld, show nocrtBuild.NO_CRT = true from rfl]

theorem reentrant_crt_runs_twice (fuel depth : Nat) (h : HINSTANCE) :
    (DllMain (crtBuild h) (reentrantCode (crtBuild h) fuel (depth + 2)) fuel h
        DLL_PROCESS_ATTACH 0 State.zero).map
      (fun x => (x.1, x.2.trace, x.2.g_bInitialized))
    = some (true, [Event.InitializeCriticalSection,
        Event.InitializeLibrary h DLL_PROCESS_ATTACH true,
        Event.InitializeLibrary h DLL_PROCESS_ATTACH true], true) := by
  have hb : (crtBuild h).NO_CRT = false := rfl
  simp [DllMain_attach_eq, EnsureInitialized, ensureLock, State.zero,
    InterlockedCompareExchange, InitializeCriticalSection, EnterCriticalSection,
    LeaveCriticalSection, CRITICAL_SECTION.zero, initOnce, callInitializeLibrary,
    reentrantCode, hb]

/-- C15 on the code: with user code whose `InitializeLibrary` makes, on its first
invocation, a nested `DllMain(0x1000, DLL_PROCESS_ATTACH, NULL)` on the same thread, the
outer `DllMain(0x1000, DLL_PROCESS_ATTACH, NULL)` on the zero state
(1) in a `NO_CRT` build returns for no fuel and no nesting bound: the nested call
spins on the lock the outer call holds;
(2) in a build without `NO_CRT` returns `TRUE` (for every nesting bound of at least 2,
which is never reached), and `InitializeLibrary` has then run to completion twice. -/
theorem C15_reentry_deadlocks_or_initializes_twice :
    (∀ fuel depth : Nat,
      DllMain nocrtBuild (reentrantCode nocrtBuild fuel depth) fuel 0x1000
        DLL_PROCESS_ATTACH 0 State.zero = none) ∧
    (∀ fuel depth : Nat,
      (DllMain (crtBuild 0x1000) (reentrantCode (crtBuild 0x1000) fuel (depth + 2)) fuel 0x1000
          DLL_PROCESS_ATTACH 0 State.zero).map
        (fun x => (x.1, initCalls x.2.trace, x.2.g_bInitialized)) = some (true, 2, true)) := by
  refine ⟨fun fuel depth => reentrant_nocrt_never_returns fuel depth 0x1000,
    fun fuel depth => ?_⟩
  have h2 := reentrant_crt_runs_twice fuel depth 0x1000
  cases hD : DllMain (crtBuild 0x1000) (reentrantCode (crtBuild 0x1000) fuel (depth + 2)) fuel
      0x1000 DLL_PROCESS_ATTACH 0 State.zero with
  | none => simp [hD] at h2
  | some x =>
    simp only [hD, Option.map_some', Option.some.injEq, Prod.mk.injEq] at h2 ⊢
    obtain ⟨hr, ht, hi⟩ := h2
    refine ⟨hr, ?_, hi⟩
    rw [ht]
    rfl

end UniversalDll
